import Mathlib

/-!
Formal model of the provider-availability and appointment-scheduling core of
a healthcare booking backend (app/crud.py plus the entity model of
app/models.py), as a shallow embedding.

Conventions of the embedding:
* SQLAlchemy rows become Lean structures; the database session becomes an
  explicit `DB` value holding lists of rows, and each CRUD function becomes a
  pure function `DB -> args -> Except ApiError (DB ...)`.  An `Except.error`
  models a raised HTTPException: the transaction rolls back, so the state is
  the unchanged input `DB`.
* UUID primary keys and uuid-derived booking references become values drawn
  from a fresh counter (`DB.next_id`); uniqueness of uuids is modelled by
  freshness of the counter.
* python `datetime.date` becomes the proleptic Gregorian `PDate`;
  `datetime.time` / the "HH:MM" strings parsed by time.fromisoformat become
  `TimeOfDay`; an aware UTC datetime becomes its total number of minutes
  (days-from-epoch * 1440 + minute-of-day) as an `Int`.
* pytz is modelled by a fixed-offset table `tzTable : String -> Option Int`
  (offset in minutes east of UTC); an unknown name plays the role of
  pytz.exceptions.UnknownTimeZoneError.  Daylight-saving shifts inside a
  single zone are outside the model.
* Python `//` on ints is `Int.fdiv` (floor division); `range(n)` for an int
  `n` is `List.range n.toNat` (empty when n <= 0), matching CPython.
* JSON dict payloads (pricing, the availability-creation body) become
  structures with `Option` fields; `d.get(k, default)` becomes `Option.getD`.
-/

/-- models.AvailabilityStatus. -/
inductive AvailabilityStatus
  | AVAILABLE | BOOKED | CANCELLED | BLOCKED | MAINTENANCE
deriving DecidableEq, Repr

/-- models.AppointmentStatus. -/
inductive AppointmentStatus
  | SCHEDULED | CONFIRMED | IN_PROGRESS | COMPLETED | CANCELLED | NO_SHOW | RESCHEDULED
deriving DecidableEq, Repr

/-- models.PaymentStatus. -/
inductive PaymentStatus
  | PENDING | PAID | PARTIAL | REFUNDED | CANCELLED
deriving DecidableEq, Repr

/-- A wall-clock time of day (python datetime.time restricted to hour/minute,
which is all the "HH:MM" columns carry). -/
structure TimeOfDay where
  hour : Nat
  minute : Nat
deriving DecidableEq, Repr

/-- Minutes since midnight, the quantity `h*60+m` the source computes. -/
def TimeOfDay.toMinutes (t : TimeOfDay) : Int :=
  (t.hour : Int) * 60 + (t.minute : Int)

/-- A proleptic Gregorian calendar date (python datetime.date). -/
structure PDate where
  year : Nat
  month : Nat
  day : Nat
deriving DecidableEq, Repr

def isLeapYear (y : Nat) : Bool :=
  (y % 4 == 0 && y % 100 != 0) || (y % 400 == 0)

def daysInMonth (y m : Nat) : Nat :=
  if m = 2 then (if isLeapYear y then 29 else 28)
  else if m = 4 ∨ m = 6 ∨ m = 9 ∨ m = 11 then 30
  else 31

/-- Days in all years strictly before year `y` (proleptic Gregorian). -/
def daysBeforeYear (y : Nat) : Nat :=
  365 * (y - 1) + ((y - 1) / 4 - (y - 1) / 100 + (y - 1) / 400)

/-- Days in the months of year `y` strictly before month `m`. -/
def daysBeforeMonth (y m : Nat) : Nat :=
  ((List.range (m - 1)).map (fun i => daysInMonth y (i + 1))).sum

/-- date.toordinal: day number of a date (python datetime.date.toordinal). -/
def PDate.toOrdinal (d : PDate) : Nat :=
  daysBeforeYear d.year + daysBeforeMonth d.year d.month + d.day

/-- The calendar day after `d`. -/
def PDate.nextDay (d : PDate) : PDate :=
  if d.day < daysInMonth d.year d.month then { d with day := d.day + 1 }
  else if d.month < 12 then { year := d.year, month := d.month + 1, day := 1 }
  else { year := d.year + 1, month := 1, day := 1 }

def PDate.addDays (d : PDate) : Nat → PDate
  | 0 => d
  | n + 1 => (d.nextDay).addDays n

/-- The (year, month) following a given (year, month). -/
def addMonth : Nat × Nat → Nat × Nat
  | (y, 12) => (y + 1, 1)
  | (y, m) => (y, m + 1)

/-- Next month after `(y, m)` that contains day-of-month `day`; dateutil's
MONTHLY rrule skips months lacking the anchor day.  Fuel-bounded: 48 months
always suffice for day <= 31. -/
def nextMonthWithDay (day : Nat) : Nat → Nat × Nat → PDate
  | 0, (y, m) => { year := y, month := m, day := day }
  | fuel + 1, ym =>
    let ym2 := addMonth ym
    if day ≤ daysInMonth ym2.1 ym2.2 then { year := ym2.1, month := ym2.2, day := day }
    else nextMonthWithDay day fuel ym2

/-- models.RecurrencePattern / the three dateutil rrule frequencies used. -/
inductive Freq
  | DAILY | WEEKLY | MONTHLY
deriving DecidableEq, Repr

/-- One step of the recurrence rule. -/
def Freq.next : Freq → PDate → PDate
  | .DAILY, d => d.nextDay
  | .WEEKLY, d => d.addDays 7
  | .MONTHLY, d => nextMonthWithDay d.day 48 (d.year, d.month)

/-- dateutil rrule(freq, dtstart, until): occurrence dates from `d0` while
not past `untilD`, inclusive on both ends.  Fuel-bounded recursion; every
step advances at least one day, so `untilD.toOrdinal + 1` steps suffice. -/
def rruleAux (f : Freq) (untilD : PDate) : Nat → PDate → List PDate
  | 0, _ => []
  | fuel + 1, d =>
    if d.toOrdinal ≤ untilD.toOrdinal then d :: rruleAux f untilD fuel (f.next d)
    else []

def rruleDates (f : Freq) (d0 untilD : PDate) : List PDate :=
  rruleAux f untilD (untilD.toOrdinal + 1) d0

/-- Fixed-offset model of the pytz timezone database: minutes east of UTC.
`none` plays the role of UnknownTimeZoneError. -/
def tzTable (name : String) : Option Int :=
  if name = "UTC" then some 0
  else if name = "America/New_York" then some (-300)
  else if name = "Asia/Kolkata" then some 330
  else if name = "Europe/Paris" then some 60
  else none

/-- The JSON pricing dict of an availability window (keys looked up with
.get, hence Option fields). -/
structure Pricing where
  base_fee : Option Int
  currency : Option String
  insurance_accepted : Option Bool
deriving DecidableEq, Repr

/-- models.Provider (the fields the scheduling core reads). -/
structure Provider where
  id : Nat
  first_name : String
  last_name : String
  specialization : String
  is_active : Bool
deriving DecidableEq, Repr

/-- models.ProviderAvailability. -/
structure ProviderAvailability where
  id : Nat
  provider_id : Nat
  date : PDate
  start_time : TimeOfDay
  end_time : TimeOfDay
  timezone : String
  is_recurring : Bool
  recurrence_pattern : Option String
  recurrence_end_date : Option PDate
  slot_duration : Int
  break_duration : Int
  status : AvailabilityStatus
  max_appointments_per_slot : Nat
  current_appointments : Int
  appointment_type : String
  pricing : Option Pricing
deriving DecidableEq, Repr

/-- models.AppointmentSlot; slot_start_time / slot_end_time are UTC instants
in minutes. -/
structure AppointmentSlot where
  id : Nat
  availability_id : Nat
  provider_id : Nat
  slot_start_time : Int
  slot_end_time : Int
  status : AvailabilityStatus
  patient_id : Option Nat
  appointment_type : String
  booking_reference : Option String
deriving DecidableEq, Repr

/-- models.Appointment (the fields the booking engine writes). -/
structure Appointment where
  id : Nat
  slot_id : Nat
  provider_id : Nat
  patient_id : Nat
  appointment_type : String
  status : AppointmentStatus
  payment_status : PaymentStatus
  scheduled_start_time : Int
  scheduled_end_time : Int
  base_fee : Int
  insurance_coverage : Int
  patient_payment : Int
  currency : String
  booking_reference : String
  cancellation_reason : Option String
  cancelled_by : Option String
  cancelled_at : Option Int
deriving DecidableEq, Repr

/-- The database session state: one list of rows per table, plus the fresh
counter standing in for uuid generation. -/
structure DB where
  providers : List Provider
  patients : List Nat
  availabilities : List ProviderAvailability
  slots : List AppointmentSlot
  appointments : List Appointment
  next_id : Nat
deriving DecidableEq, Repr

/-- A raised fastapi HTTPException; `internal` stands for an unhandled
python exception surfacing as a 500 (e.g. an attribute error on a broken
foreign key). -/
inductive ApiError
  | notFound (detail : String)
  | badRequest (detail : String)
  | internal
deriving DecidableEq, Repr

/-- Zero-padded "HH" / "MM" rendering, reconstructing the stored "HH:MM"
strings the source interpolates into error details. -/
def pad2 (n : Nat) : String :=
  if n < 10 then "0" ++ toString n else toString n

def timeStr (t : TimeOfDay) : String :=
  pad2 t.hour ++ ":" ++ pad2 t.minute

/-- The availability-creation payload (the dict the router forwards;
optional keys are read with .get). -/
structure AvailabilityCreate where
  date : PDate
  start_time : TimeOfDay
  end_time : TimeOfDay
  timezone : String
  is_recurring : Bool
  recurrence_pattern : Option String
  recurrence_end_date : Option PDate
  slot_duration : Int
  break_duration : Int
  max_appointments_per_slot : Nat
  appointment_type : String
  pricing : Option Pricing
deriving DecidableEq, Repr

/-- Python truthiness of the optional recurrence_pattern string. -/
def patternTruthy : Option String → Bool
  | some s => !s.isEmpty
  | none => false

/-- crud.create_provider_availability lines 312-326: the window `ex` makes
the overlap check fire for request `a` of provider `pid`.  The query
filters by provider, same date and status in (AVAILABLE, BOOKED); the loop
then applies the half-open test start < ex.end and end > ex.start (both
datetimes sit on the same date, so wall-clock minutes decide it). -/
def isConflicting (pid : Nat) (a : AvailabilityCreate) (ex : ProviderAvailability) : Prop :=
  ex.provider_id = pid ∧ ex.date = a.date ∧
  (ex.status = .AVAILABLE ∨ ex.status = .BOOKED) ∧
  a.start_time.toMinutes < ex.end_time.toMinutes ∧
  ex.start_time.toMinutes < a.end_time.toMinutes

instance (pid : Nat) (a : AvailabilityCreate) (ex : ProviderAvailability) :
    Decidable (isConflicting pid a ex) := by
  unfold isConflicting; infer_instance

/-- First conflicting window in table order (the python loop raises on the
first overlapping row of the filtered query). -/
def conflictingWindow (db : DB) (pid : Nat) (a : AvailabilityCreate) :
    Option ProviderAvailability :=
  db.availabilities.find? (fun ex => decide (isConflicting pid a ex))

def conflictMsg (ex : ProviderAvailability) : String :=
  "Time slot conflicts with existing availability: " ++
    timeStr ex.start_time ++ "-" ++ timeStr ex.end_time

/-- crud.create_provider_availability lines 328-349: the dates_to_create
computation.  The recurrence branch is taken only when is_recurring,
recurrence_pattern and recurrence_end_date are all truthy; only then can
"Invalid recurrence pattern" be raised. -/
def datesToCreate (a : AvailabilityCreate) : Except ApiError (List PDate) :=
  if a.is_recurring && patternTruthy a.recurrence_pattern && a.recurrence_end_date.isSome then
    let untilD := a.recurrence_end_date.getD a.date
    if a.recurrence_pattern = some "daily" then .ok (rruleDates .DAILY a.date untilD)
    else if a.recurrence_pattern = some "weekly" then .ok (rruleDates .WEEKLY a.date untilD)
    else if a.recurrence_pattern = some "monthly" then .ok (rruleDates .MONTHLY a.date untilD)
    else .error (.badRequest "Invalid recurrence pattern")
  else .ok [a.date]

/-- crud.generate_appointment_slots: produce the batch of slot rows for one
persisted window.  The source splits the minute counts into (hour, minute)
pairs and recombines them through datetime.combine; for in-range times that
round-trip is the identity, so the model works in minutes directly.
Localization to the declared timezone followed by conversion to UTC is
subtraction of the zone offset; an unrecognized timezone falls back to UTC
(offset 0), mirroring the except UnknownTimeZoneError handler. -/
def generate_appointment_slots (availability : ProviderAvailability)
    (slots_count : Int) (timezone_str : String) (idBase : Nat) :
    List AppointmentSlot :=
  let tzoff := (tzTable timezone_str).getD 0
  let eff := availability.slot_duration + availability.break_duration
  let dayBase : Int := (availability.date.toOrdinal : Int) * 1440
  (List.range slots_count.toNat).map (fun (i : Nat) =>
    let slot_start_minutes : Int := availability.start_time.toMinutes + (i : Int) * eff
    let slot_end_minutes : Int := slot_start_minutes + availability.slot_duration
    { id := idBase + i
      availability_id := availability.id
      provider_id := availability.provider_id
      slot_start_time := dayBase + slot_start_minutes - tzoff
      slot_end_time := dayBase + slot_end_minutes - tzoff
      status := .AVAILABLE
      patient_id := none
      appointment_type := availability.appointment_type
      booking_reference := none })

/-- One iteration of the per-date loop of crud.create_provider_availability:
persist the window row for `current_date` (db.add + db.flush allocates its
id) and its generated slot batch. -/
def createWindowAndSlots (db : DB) (provider_id : Nat) (a : AvailabilityCreate)
    (slots_count : Int) (current_date : PDate) : DB × ProviderAvailability :=
  let availability : ProviderAvailability :=
    { id := db.next_id
      provider_id := provider_id
      date := current_date
      start_time := a.start_time
      end_time := a.end_time
      timezone := a.timezone
      is_recurring := a.is_recurring
      recurrence_pattern := a.recurrence_pattern
      recurrence_end_date := a.recurrence_end_date
      slot_duration := a.slot_duration
      break_duration := a.break_duration
      status := .AVAILABLE
      max_appointments_per_slot := a.max_appointments_per_slot
      current_appointments := 0
      appointment_type := a.appointment_type
      pricing := a.pricing }
  let newSlots := generate_appointment_slots availability slots_count a.timezone (db.next_id + 1)
  ({ db with
      availabilities := db.availabilities ++ [availability]
      slots := db.slots ++ newSlots
      next_id := db.next_id + 1 + newSlots.length },
   availability)

/-- The for-loop of crud.create_provider_availability over the occurrence
dates: threads the session, collects the created windows in order and sums
the per-date slot counts (each date contributes the same count, the length
of range(slots_count)). -/
def createLoop (provider_id : Nat) (a : AvailabilityCreate) (slots_count : Int) :
    DB → List PDate → DB × List ProviderAvailability × Nat
  | db, [] => (db, [], 0)
  | db, d :: ds =>
    let r := createWindowAndSlots db provider_id a slots_count d
    let rest := createLoop provider_id a slots_count r.1 ds
    (rest.1, r.2 :: rest.2.1, slots_count.toNat + rest.2.2)

/-- The aggregate returned by crud.create_provider_availability. -/
structure CreateAvailabilityResult where
  availability_id : Nat
  slots_created : Nat
  date_range_start : PDate
  date_range_end : PDate
  total_appointments_available : Nat
deriving DecidableEq, Repr

/-- python min over a nonempty list of dates (calendar order). -/
def dateListMin : List PDate → PDate
  | [] => { year := 0, month := 0, day := 0 }
  | d :: t => t.foldl (fun acc x => if x.toOrdinal < acc.toOrdinal then x else acc) d

/-- python max over a nonempty list of dates (calendar order). -/
def dateListMax : List PDate → PDate
  | [] => { year := 0, month := 0, day := 0 }
  | d :: t => t.foldl (fun acc x => if acc.toOrdinal < x.toOrdinal then x else acc) d

/-- crud.create_provider_availability (lines 292-417).  Stage order follows
the source: provider lookup, conflict scan (against the request's own date
only), recurrence expansion, then the per-date loop.  The effective-duration
guard sits inside the loop, so it fires only when at least one date exists;
an empty recurrence expansion reaches the result-building code and dies
there with an IndexError (modelled as ApiError.internal) with nothing
committed. -/
def create_provider_availability (db : DB) (provider_id : Nat)
    (a : AvailabilityCreate) : Except ApiError (DB × CreateAvailabilityResult) :=
  match db.providers.find? (fun p => p.id == provider_id) with
  | none => .error (.notFound "Provider not found")
  | some _ =>
    match conflictingWindow db provider_id a with
    | some ex => .error (.badRequest (conflictMsg ex))
    | none =>
      match datesToCreate a with
      | .error e => .error e
      | .ok dates =>
        match dates with
        | [] => .error .internal
        | _ :: _ =>
          let eff := a.slot_duration + a.break_duration
          if eff ≤ 0 then .error (.badRequest "Invalid slot duration or break duration")
          else
            let total_minutes : Int := a.end_time.toMinutes - a.start_time.toMinutes
            let slots_count : Int := Int.fdiv total_minutes eff
            let final := createLoop provider_id a slots_count db dates
            .ok (final.1,
              { availability_id := (match final.2.1 with | [] => 0 | w :: _ => w.id)
                slots_created := final.2.2
                date_range_start := dateListMin dates
                date_range_end := dateListMax dates
                total_appointments_available := final.2.2 })

/-- Row update helpers: the ORM mutates the fetched object; the model maps
the update over the table keyed by primary key. -/
def updSlots (slots : List AppointmentSlot) (sid : Nat)
    (f : AppointmentSlot → AppointmentSlot) : List AppointmentSlot :=
  slots.map (fun s => if s.id = sid then f s else s)

def updAvails (avails : List ProviderAvailability) (aid : Nat)
    (f : ProviderAvailability → ProviderAvailability) : List ProviderAvailability :=
  avails.map (fun a => if a.id = aid then f a else a)

def updAppts (appts : List Appointment) (aid : Nat)
    (f : Appointment → Appointment) : List Appointment :=
  appts.map (fun a => if a.id = aid then f a else a)

def findSlot (db : DB) (sid : Nat) : Option AppointmentSlot :=
  db.slots.find? (fun s => s.id == sid)

def findAvail (db : DB) (aid : Nat) : Option ProviderAvailability :=
  db.availabilities.find? (fun a => a.id == aid)

def findAppt (db : DB) (aid : Nat) : Option Appointment :=
  db.appointments.find? (fun a => a.id == aid)

/-- The booking payload (crud.create_appointment's appointment_data dict). -/
structure AppointmentCreate where
  slot_id : Nat
  appointment_type : String
  insurance_coverage : Option Int
  patient_payment : Option Int
deriving DecidableEq, Repr

/-- The uuid-derived booking reference, modelled from the fresh counter. -/
def bookingRefFor (n : Nat) : String :=
  "APT-" ++ toString n

/-- crud.create_appointment (lines 755-850): the Book operation.  Checks in
source order: patient, slot existence, slot availability, provider; then
copies base_fee/currency out of the parent window's pricing dict (defaults
0 / "USD"), builds the SCHEDULED appointment, flips the slot to BOOKED with
patient and fresh booking reference, bumps the window occupancy counter and
commits it all at once. -/
def create_appointment (db : DB) (patient_id : Nat) (a : AppointmentCreate) :
    Except ApiError (DB × Appointment) :=
  if patient_id ∉ db.patients then .error (.notFound "Patient not found")
  else
    match findSlot db a.slot_id with
    | none => .error (.notFound "Appointment slot not found")
    | some slot =>
      if slot.status ≠ .AVAILABLE then
        .error (.badRequest "Appointment slot is not available")
      else
        match db.providers.find? (fun p => p.id == slot.provider_id) with
        | none => .error (.notFound "Provider not found")
        | some _ =>
          match findAvail db slot.availability_id with
          | none => .error .internal
          | some availability =>
            let base_fee := match availability.pricing with
              | some p => p.base_fee.getD 0
              | none => 0
            let currency := match availability.pricing with
              | some p => p.currency.getD "USD"
              | none => "USD"
            let booking_reference := bookingRefFor db.next_id
            let appointment : Appointment :=
              { id := db.next_id + 1
                slot_id := a.slot_id
                provider_id := slot.provider_id
                patient_id := patient_id
                appointment_type := a.appointment_type
                status := .SCHEDULED
                payment_status := .PENDING
                scheduled_start_time := slot.slot_start_time
                scheduled_end_time := slot.slot_end_time
                base_fee := base_fee
                insurance_coverage := a.insurance_coverage.getD 0
                patient_payment := a.patient_payment.getD 0
                currency := currency
                booking_reference := booking_reference
                cancellation_reason := none
                cancelled_by := none
                cancelled_at := none }
            .ok ({ db with
                    slots := updSlots db.slots slot.id (fun s =>
                      { s with status := .BOOKED, patient_id := some patient_id,
                               booking_reference := some booking_reference })
                    availabilities := updAvails db.availabilities availability.id (fun av =>
                      { av with current_appointments := av.current_appointments + 1 })
                    appointments := db.appointments ++ [appointment]
                    next_id := db.next_id + 2 },
                  appointment)

/-- crud.cancel_appointment (lines 876-915).  A missing appointment returns
None (ok none); a terminal appointment raises; otherwise the appointment is
cancelled with its metadata, the bound slot is released and the parent
window's occupancy counter is decremented with a floor at zero.  `now` is
datetime.utcnow(). -/
def cancel_appointment (db : DB) (appointment_id : Nat) (reason : String)
    (cancelled_by : String) (now : Int) :
    Except ApiError (Option (DB × Appointment)) :=
  match findAppt db appointment_id with
  | none => .ok none
  | some appointment =>
    if appointment.status = .CANCELLED ∨ appointment.status = .COMPLETED then
      .error (.badRequest "Appointment cannot be cancelled")
    else
      match findSlot db appointment.slot_id with
      | none => .error .internal
      | some slot =>
        match findAvail db slot.availability_id with
        | none => .error .internal
        | some availability =>
          let appointment2 :=
            { appointment with
                status := AppointmentStatus.CANCELLED
                cancellation_reason := some reason
                cancelled_by := some cancelled_by
                cancelled_at := some now }
          let db2 :=
            { db with
                appointments := updAppts db.appointments appointment.id (fun _ => appointment2)
                slots := updSlots db.slots slot.id (fun s =>
                  { s with status := .AVAILABLE, patient_id := none,
                           booking_reference := none })
                availabilities := updAvails db.availabilities availability.id (fun av =>
                  { av with current_appointments := max 0 (av.current_appointments - 1) }) }
          .ok (some (db2, appointment2))

/-- crud.reschedule_appointment (lines 918-973).  A missing appointment
returns None; a terminal appointment raises; a missing new slot raises 404;
a non-AVAILABLE new slot raises 400.  On success the old slot is released
(status AVAILABLE, patient and booking reference cleared), the new slot is
booked with the appointment's patient and its existing booking reference,
and the appointment is re-pointed at the new slot with status RESCHEDULED.
No occupancy counter is touched. -/
def reschedule_appointment (db : DB) (appointment_id : Nat) (new_slot_id : Nat) :
    Except ApiError (Option (DB × Appointment)) :=
  match findAppt db appointment_id with
  | none => .ok none
  | some appointment =>
    if appointment.status = .CANCELLED ∨ appointment.status = .COMPLETED then
      .error (.badRequest "Appointment cannot be rescheduled")
    else
      match findSlot db new_slot_id with
      | none => .error (.notFound "New appointment slot not found")
      | some new_slot =>
        if new_slot.status ≠ .AVAILABLE then
          .error (.badRequest "New appointment slot is not available")
        else
          match findSlot db appointment.slot_id with
          | none => .error .internal
          | some old_slot =>
            let slots1 := updSlots db.slots old_slot.id (fun s =>
              { s with status := .AVAILABLE, patient_id := none,
                       booking_reference := none })
            let slots2 := updSlots slots1 new_slot_id (fun s =>
              { s with status := .BOOKED,
                       patient_id := some appointment.patient_id,
                       booking_reference := some appointment.booking_reference })
            let appointment2 :=
              { appointment with
                  slot_id := new_slot_id
                  scheduled_start_time := new_slot.slot_start_time
                  scheduled_end_time := new_slot.slot_end_time
                  status := AppointmentStatus.RESCHEDULED }
            let db2 :=
              { db with
                  slots := slots2
                  appointments := updAppts db.appointments appointment.id (fun _ => appointment2) }
            .ok (some (db2, appointment2))

/-- crud.delete_availability_slot (lines 592-629).  A missing slot returns
False; a BOOKED slot raises; with delete_recurring the cascade to every
sibling slot and the window row itself happens only when the parent window
is flagged is_recurring (python short-circuits the conjunction, so the
window row is only dereferenced when delete_recurring is passed). -/
def delete_availability_slot (db : DB) (slot_id : Nat) (delete_recurring : Bool) :
    Except ApiError (DB × Bool) :=
  match findSlot db slot_id with
  | none => .ok (db, false)
  | some slot =>
    if slot.status = .BOOKED then
      .error (.badRequest "Cannot delete slot with existing bookings")
    else
      if delete_recurring then
        match findAvail db slot.availability_id with
        | none => .error .internal
        | some availability =>
          if availability.is_recurring then
            .ok ({ db with
                    slots := db.slots.filter (fun s => s.availability_id ≠ slot.availability_id)
                    availabilities := db.availabilities.filter (fun a => a.id ≠ slot.availability_id) },
                 true)
          else
            .ok ({ db with slots := db.slots.filter (fun s => s.id ≠ slot.id) }, true)
      else
        .ok ({ db with slots := db.slots.filter (fun s => s.id ≠ slot.id) }, true)

/-- Committed-state view of an operation: a raised exception rolls the
transaction back, leaving the session state unchanged. -/
def applyCreateAvailability (db : DB) (pid : Nat) (a : AvailabilityCreate) : DB :=
  match create_provider_availability db pid a with
  | .ok (db2, _) => db2
  | .error _ => db

def applyCreateAppointment (db : DB) (pid : Nat) (a : AppointmentCreate) : DB :=
  match create_appointment db pid a with
  | .ok (db2, _) => db2
  | .error _ => db

def applyCancel (db : DB) (aid : Nat) (reason cancelled_by : String) (now : Int) : DB :=
  match cancel_appointment db aid reason cancelled_by now with
  | .ok (some (db2, _)) => db2
  | _ => db

def applyReschedule (db : DB) (aid nsid : Nat) : DB :=
  match reschedule_appointment db aid nsid with
  | .ok (some (db2, _)) => db2
  | _ => db

/-- The search payload (AvailabilitySearchRequest fields the crud layer
reads with .get). -/
structure SearchCriteria where
  date : Option PDate
  start_date : Option PDate
  end_date : Option PDate
  specialization : Option String
  appointment_type : Option String
  insurance_accepted : Option Bool
  max_price : Option Int
  timezone : Option String
deriving DecidableEq, Repr

/-- Substring test on character lists (SQL ilike with wildcards on both
sides, after lowercasing both operands). -/
def charListInfixOf (needle : List Char) : List Char → Bool
  | [] => needle.isEmpty
  | c :: t => needle.isPrefixOf (c :: t) || charListInfixOf needle t

def strContains (hay needle : String) : Bool :=
  charListInfixOf needle.toLower.toList hay.toLower.toList

/-- crud.search_availability lines 639-663: the WHERE clause.  The joined
provider and parent window must exist (inner joins); the base filter keeps
AVAILABLE slots of active providers; each criterion is applied only when
its key is truthy (`.get(...)` guards), so max_price = 0 and empty strings
disable their filters, while insurance_accepted uses an explicit
`is not None` check.  Missing pricing keys compare as SQL NULL and drop the
row. -/
def slotMatches (db : DB) (c : SearchCriteria) (s : AppointmentSlot) : Bool :=
  (s.status == AvailabilityStatus.AVAILABLE) &&
  (match db.providers.find? (fun p => p.id == s.provider_id) with
   | some provider =>
       provider.is_active &&
       (match c.specialization with
        | some sp => if sp.isEmpty then true else strContains provider.specialization sp
        | none => true)
   | none => false) &&
  (match findAvail db s.availability_id with
   | some availability =>
       (match c.insurance_accepted with
        | some b => (availability.pricing.bind (fun pr => pr.insurance_accepted)) == some b
        | none => true) &&
       (match c.max_price with
        | some p =>
            if p == 0 then true
            else match availability.pricing.bind (fun pr => pr.base_fee) with
              | some fee => decide (fee ≤ p)
              | none => false
        | none => true)
   | none => false) &&
  (match c.date with
   | some d =>
       decide ((d.toOrdinal : Int) * 1440 ≤ s.slot_start_time) &&
       decide (s.slot_start_time < ((d.toOrdinal : Int) + 1) * 1440)
   | none => true) &&
  (match c.start_date, c.end_date with
   | some d1, some d2 =>
       decide ((d1.toOrdinal : Int) * 1440 ≤ s.slot_start_time) &&
       decide (s.slot_start_time < ((d2.toOrdinal : Int) + 1) * 1440)
   | _, _ => true) &&
  (match c.appointment_type with
   | some t => if t.isEmpty then true else s.appointment_type == t
   | none => true)

/-- One step of the group-by-provider dict building (lines 669-703):
append the slot to its provider's bucket, creating the bucket on first
sight (python dict preserves insertion order). -/
def addToGroups (acc : List (Nat × List AppointmentSlot)) (s : AppointmentSlot) :
    List (Nat × List AppointmentSlot) :=
  if acc.any (fun g => g.1 == s.provider_id) then
    acc.map (fun g => if g.1 == s.provider_id then (g.1, g.2 ++ [s]) else g)
  else acc ++ [(s.provider_id, [s])]

def groupByProvider (l : List AppointmentSlot) : List (Nat × List AppointmentSlot) :=
  l.foldl addToGroups []

/-- The per-slot payload of a search result, with the UTC instants shifted
to the requested display timezone. -/
structure SlotOut where
  slot_id : Nat
  start_local : Int
  end_local : Int
  appointment_type : String
deriving DecidableEq, Repr

def displaySlot (off : Int) (s : AppointmentSlot) : SlotOut :=
  { slot_id := s.id
    start_local := s.slot_start_time + off
    end_local := s.slot_end_time + off
    appointment_type := s.appointment_type }

structure ProviderGroup where
  provider_id : Nat
  provider_name : String
  available_slots : List SlotOut
deriving DecidableEq, Repr

structure SearchResult where
  total_results : Nat
  results : List ProviderGroup
deriving DecidableEq, Repr

/-- crud.search_availability (lines 632-709).  Filter, then group per
provider in first-seen order; display conversion uses
pytz.timezone(criteria.get("timezone", "UTC")) with no fallback handler,
so an unrecognized display timezone raises only once a matching slot is
iterated (internal error). -/
def search_availability (db : DB) (c : SearchCriteria) : Except ApiError SearchResult :=
  let slots := db.slots.filter (slotMatches db c)
  let groups := groupByProvider slots
  if slots.isEmpty then
    .ok { total_results := 0, results := [] }
  else
    match tzTable (c.timezone.getD "UTC") with
    | none => .error .internal
    | some off =>
      .ok { total_results := groups.length
            results := groups.map (fun g =>
              { provider_id := g.1
                provider_name :=
                  (match db.providers.find? (fun p => p.id == g.1) with
                   | some p => "Dr. " ++ p.first_name ++ " " ++ p.last_name
                   | none => "")
                available_slots := g.2.map (displaySlot off) }) }

/-- Schema-level well-formedness of a session state: primary keys are
unique and below the fresh counter, and the foreign keys the core
dereferences without a None check actually resolve. -/
def WellFormed (db : DB) : Prop :=
  (db.providers.map (fun p => p.id)).Nodup ∧
  (db.availabilities.map (fun a => a.id)).Nodup ∧
  (db.slots.map (fun s => s.id)).Nodup ∧
  (db.appointments.map (fun a => a.id)).Nodup ∧
  (∀ s ∈ db.slots, ∃ a ∈ db.availabilities, a.id = s.availability_id) ∧
  (∀ ap ∈ db.appointments, ∃ s ∈ db.slots, s.id = ap.slot_id) ∧
  (∀ a ∈ db.availabilities, a.id < db.next_id) ∧
  (∀ s ∈ db.slots, s.id < db.next_id) ∧
  (∀ ap ∈ db.appointments, ap.id < db.next_id)

instance (db : DB) : Decidable (WellFormed db) := by
  unfold WellFormed; infer_instance

/-- The booking-engine consistency invariant: a BOOKED slot has a live
(non-terminal) appointment bound to it, and a live appointment's slot is
BOOKED. -/
def SlotApptConsistent (db : DB) : Prop :=
  (∀ s ∈ db.slots, s.status = .BOOKED →
     ∃ ap ∈ db.appointments, ap.slot_id = s.id ∧
       ap.status ≠ .CANCELLED ∧ ap.status ≠ .COMPLETED) ∧
  (∀ ap ∈ db.appointments, ap.status ≠ .CANCELLED → ap.status ≠ .COMPLETED →
     ∃ s ∈ db.slots, s.id = ap.slot_id ∧ s.status = .BOOKED)

instance (db : DB) : Decidable (SlotApptConsistent db) := by
  unfold SlotApptConsistent; infer_instance

/-- Did the request succeed (no HTTPException)? -/
def isOk {α : Type} : Except ApiError α → Bool
  | .ok _ => true
  | .error _ => false

def searchTotalResults : Except ApiError SearchResult → Nat
  | .ok r => r.total_results
  | .error _ => 0

/- Concrete states used to instantiate the theorems below. -/

def provider1 : Provider :=
  { id := 1, first_name := "Ada", last_name := "Lee",
    specialization := "Cardiology", is_active := true }

def pricing100 : Pricing :=
  { base_fee := some 100, currency := some "USD", insurance_accepted := some true }

def feb15 : PDate := { year := 2024, month := 2, day := 15 }
def feb16 : PDate := { year := 2024, month := 2, day := 16 }

def reqBase : AvailabilityCreate :=
  { date := feb15
    start_time := { hour := 9, minute := 0 }
    end_time := { hour := 17, minute := 0 }
    timezone := "America/New_York"
    is_recurring := false
    recurrence_pattern := none
    recurrence_end_date := none
    slot_duration := 30
    break_duration := 15
    max_appointments_per_slot := 1
    appointment_type := "consultation"
    pricing := some pricing100 }

def dbEmpty : DB :=
  { providers := [provider1], patients := [7], availabilities := [],
    slots := [], appointments := [], next_id := 10 }

/-- Existing window of provider 1 on feb16, 09:00-17:00, AVAILABLE. -/
def window5 : ProviderAvailability :=
  { id := 5, provider_id := 1, date := feb16
    start_time := { hour := 9, minute := 0 }, end_time := { hour := 17, minute := 0 }
    timezone := "America/New_York", is_recurring := false
    recurrence_pattern := none, recurrence_end_date := none
    slot_duration := 30, break_duration := 15, status := .AVAILABLE
    max_appointments_per_slot := 1, current_appointments := 0
    appointment_type := "consultation", pricing := some pricing100 }

def dbC5 : DB := { dbEmpty with availabilities := [window5] }

/-- reqBase repeated daily through feb16: its second occurrence date
collides with window5. -/
def reqC5 : AvailabilityCreate :=
  { reqBase with
      is_recurring := true
      recurrence_pattern := some "daily"
      recurrence_end_date := some feb16 }

/-- A recurring request with an unsupported pattern and no recurrence end
date. -/
def reqC8 : AvailabilityCreate :=
  { reqBase with is_recurring := true, recurrence_pattern := some "yearly" }

def reqC8y : AvailabilityCreate :=
  { reqC8 with recurrence_end_date := some feb16 }

/-- Non-recurring parent window with two generated slots. -/
def window10 : ProviderAvailability :=
  { window5 with id := 10, date := feb15 }

def slot100 : AppointmentSlot :=
  { id := 100, availability_id := 10, provider_id := 1
    slot_start_time := 840, slot_end_time := 870, status := .AVAILABLE
    patient_id := none, appointment_type := "consultation", booking_reference := none }

def slot101 : AppointmentSlot :=
  { slot100 with id := 101, slot_start_time := 885, slot_end_time := 915 }

def dbC7 : DB :=
  { dbEmpty with availabilities := [window10], slots := [slot100, slot101], next_id := 300 }

/-- Recurring variant of the same layout. -/
def window20 : ProviderAvailability :=
  { window10 with id := 20, is_recurring := true }

def dbC7r : DB :=
  { dbEmpty with
      availabilities := [window20]
      slots := [{ slot100 with availability_id := 20 }, { slot101 with availability_id := 20 }]
      next_id := 300 }

/-- A booked slot (100) with its SCHEDULED appointment (50) under window 10
(occupancy 1), plus a free slot (101) under a second window 11. -/
def window11 : ProviderAvailability :=
  { window10 with id := 11 }

def bookedSlot100 : AppointmentSlot :=
  { slot100 with status := .BOOKED, patient_id := some 7, booking_reference := some "APT-10" }

def freeSlot101 : AppointmentSlot :=
  { slot101 with availability_id := 11 }

def appt50 : Appointment :=
  { id := 50, slot_id := 100, provider_id := 1, patient_id := 7
    appointment_type := "consultation", status := .SCHEDULED, payment_status := .PENDING
    scheduled_start_time := 840, scheduled_end_time := 870
    base_fee := 100, insurance_coverage := 0, patient_payment := 0
    currency := "USD", booking_reference := "APT-10"
    cancellation_reason := none, cancelled_by := none, cancelled_at := none }

def dbBooked : DB :=
  { dbEmpty with
      availabilities := [{ window10 with current_appointments := 1 }, window11]
      slots := [bookedSlot100, freeSlot101]
      appointments := [appt50]
      next_id := 300 }

/-- State with one free slot, ready to book. -/
def dbForBook : DB :=
  { dbEmpty with availabilities := [window10], slots := [slot100], next_id := 300 }

def bookReq : AppointmentCreate :=
  { slot_id := 100, appointment_type := "consultation"
    insurance_coverage := none, patient_payment := none }

/-- Search fixture: one AVAILABLE slot of an active provider, window priced
at base_fee 100. -/
def dbC9 : DB := dbC7

def critNone : SearchCriteria :=
  { date := none, start_date := none, end_date := none, specialization := none
    appointment_type := none, insurance_accepted := none, max_price := none
    timezone := none }

def critZero : SearchCriteria := { critNone with max_price := some 0 }

def critFifty : SearchCriteria := { critNone with max_price := some 50 }

def critBig : SearchCriteria := { critNone with max_price := some 150 }

/- General lemmas about the row-update and lookup helpers. -/

theorem updSlots_find? (l : List AppointmentSlot) (sid : Nat)
    (f : AppointmentSlot → AppointmentSlot)
    (hf : ∀ s ∈ l, s.id = sid → (f s).id = s.id) (k : Nat) :
    (updSlots l sid f).find? (fun s => s.id == k)
      = (l.find? (fun s => s.id == k)).map (fun s => if s.id = sid then f s else s) := by
  induction l with
  | nil => rfl
  | cons x t ih =>
    have hkey : (if x.id = sid then f x else x).id = x.id := by
      by_cases hxs : x.id = sid
      · simp [hxs, hf x (List.mem_cons_self x t) hxs]
      · simp [hxs]
    by_cases hxk : (x.id == k) = true
    · simp [updSlots, List.find?_cons, hkey, hxk]
    · simp only [updSlots, List.map_cons, List.find?_cons, hkey, hxk]
      simp only [Bool.false_eq_true] at hxk
      simp [hxk]
      simpa [updSlots] using ih (fun s hs hsid => hf s (List.mem_cons_of_mem x hs) hsid)

theorem updAvails_find? (l : List ProviderAvailability) (aid : Nat)
    (f : ProviderAvailability → ProviderAvailability)
    (hf : ∀ a ∈ l, a.id = aid → (f a).id = a.id) (k : Nat) :
    (updAvails l aid f).find? (fun a => a.id == k)
      = (l.find? (fun a => a.id == k)).map (fun a => if a.id = aid then f a else a) := by
  induction l with
  | nil => rfl
  | cons x t ih =>
    have hkey : (if x.id = aid then f x else x).id = x.id := by
      by_cases hxs : x.id = aid
      · simp [hxs, hf x (List.mem_cons_self x t) hxs]
      · simp [hxs]
    by_cases hxk : (x.id == k) = true
    · simp [updAvails, List.find?_cons, hkey, hxk]
    · simp only [updAvails, List.map_cons, List.find?_cons, hkey, hxk]
      simp only [Bool.false_eq_true] at hxk
      simp [hxk]
      simpa [updAvails] using ih (fun a ha haid => hf a (List.mem_cons_of_mem x ha) haid)

theorem updAppts_find? (l : List Appointment) (aid : Nat)
    (f : Appointment → Appointment)
    (hf : ∀ a ∈ l, a.id = aid → (f a).id = a.id) (k : Nat) :
    (updAppts l aid f).find? (fun a => a.id == k)
      = (l.find? (fun a => a.id == k)).map (fun a => if a.id = aid then f a else a) := by
  induction l with
  | nil => rfl
  | cons x t ih =>
    have hkey : (if x.id = aid then f x else x).id = x.id := by
      by_cases hxs : x.id = aid
      · simp [hxs, hf x (List.mem_cons_self x t) hxs]
      · simp [hxs]
    by_cases hxk : (x.id == k) = true
    · simp [updAppts, List.find?_cons, hkey, hxk]
    · simp only [updAppts, List.map_cons, List.find?_cons, hkey, hxk]
      simp only [Bool.false_eq_true] at hxk
      simp [hxk]
      simpa [updAppts] using ih (fun a ha haid => hf a (List.mem_cons_of_mem x ha) haid)

theorem find?_some_of_mem {α : Type} (l : List α) (p : α → Bool) (x : α)
    (hx : x ∈ l) (hp : p x = true) : ∃ y, l.find? p = some y ∧ y ∈ l ∧ p y = true := by
  have h2 : (l.find? p).isSome := List.find?_isSome.mpr ⟨x, hx, hp⟩
  rcases Option.isSome_iff_exists.mp h2 with ⟨y, hy⟩
  exact ⟨y, hy, List.mem_of_find?_eq_some hy, List.find?_some hy⟩

/-- C7: the claim as stated is false.  In state dbC7 the parent window 10 is
not flagged is_recurring; deleting its AVAILABLE slot 100 with
delete_recurring = true succeeds but removes only that single slot: the
sibling slot 101 and the window row itself survive, while the claim
demands that every slot of the parent window and the window row be
removed for any parent window. -/
theorem c7_delete_counterexample :
    delete_availability_slot dbC7 100 true = .ok ({ dbC7 with slots := [slot101] }, true) ∧
    findAvail { dbC7 with slots := [slot101] } 10 = some window10 ∧
    findSlot { dbC7 with slots := [slot101] } 101 = some slot101 :=
  ⟨rfl, rfl, rfl⟩

/-- C7 (amended): deleting a BOOKED slot is rejected; when delete_recurring
is requested on a deletable slot AND the parent window is flagged
is_recurring, every slot of that window and the window row are removed;
otherwise (delete_recurring absent, or parent window not recurring) only
the single slot is removed and the window row survives. -/
theorem c7_delete_spec (db : DB) (slot_id : Nat) (delete_recurring : Bool)
    (slot : AppointmentSlot) (hfind : findSlot db slot_id = some slot) :
    (slot.status = .BOOKED →
       delete_availability_slot db slot_id delete_recurring
         = .error (.badRequest "Cannot delete slot with existing bookings")) ∧
    (∀ av, slot.status ≠ .BOOKED → delete_recurring = true →
       findAvail db slot.availability_id = some av → av.is_recurring = true →
       delete_availability_slot db slot_id delete_recurring
         = .ok ({ db with
                   slots := db.slots.filter (fun s => s.availability_id ≠ slot.availability_id)
                   availabilities := db.availabilities.filter (fun a => a.id ≠ slot.availability_id) },
                true)) ∧
    (∀ av, slot.status ≠ .BOOKED →
       (delete_recurring = false ∨
         (findAvail db slot.availability_id = some av ∧ av.is_recurring = false)) →
       delete_availability_slot db slot_id delete_recurring
         = .ok ({ db with slots := db.slots.filter (fun s => s.id ≠ slot.id) }, true)) := by
  refine ⟨?_, ?_, ?_⟩
  · intro hb
    simp [delete_availability_slot, hfind, hb]
  · intro av hnb hdr hav hrec
    simp [delete_availability_slot, hfind, hnb, hdr, hav, hrec]
  · intro av hnb hcase
    rcases hcase with hdr | ⟨hav, hrec⟩
    · simp [delete_availability_slot, hfind, hnb, hdr]
    · cases hdr : delete_recurring
      · simp [delete_availability_slot, hfind, hnb, hdr]
      · simp [delete_availability_slot, hfind, hnb, hdr, hav, hrec]

theorem c7_delete_spec_witness :
    (findSlot dbC7r 100 = some { slot100 with availability_id := 20 }) ∧
    ((({ slot100 with availability_id := 20 } : AppointmentSlot).status = .BOOKED →
       delete_availability_slot dbC7r 100 true
         = .error (.badRequest "Cannot delete slot with existing bookings")) ∧
    (∀ av, ({ slot100 with availability_id := 20 } : AppointmentSlot).status ≠ .BOOKED → true = true →
       findAvail dbC7r ({ slot100 with availability_id := 20 } : AppointmentSlot).availability_id = some av →
       av.is_recurring = true →
       delete_availability_slot dbC7r 100 true
         = .ok ({ dbC7r with
                   slots := dbC7r.slots.filter (fun s => s.availability_id ≠ ({ slot100 with availability_id := 20 } : AppointmentSlot).availability_id)
                   availabilities := dbC7r.availabilities.filter (fun a => a.id ≠ ({ slot100 with availability_id := 20 } : AppointmentSlot).availability_id) },
                true)) ∧
    (∀ av, ({ slot100 with availability_id := 20 } : AppointmentSlot).status ≠ .BOOKED →
       (true = false ∨
         (findAvail dbC7r ({ slot100 with availability_id := 20 } : AppointmentSlot).availability_id = some av ∧
          av.is_recurring = false)) →
       delete_availability_slot dbC7r 100 true
         = .ok ({ dbC7r with slots := dbC7r.slots.filter (fun s => s.id ≠ ({ slot100 with availability_id := 20 } : AppointmentSlot).id) }, true))) :=
  ⟨rfl, c7_delete_spec dbC7r 100 true _ rfl⟩

/-- C2: cancelling an existing Appointment is rejected exactly when its
status is already CANCELLED or COMPLETED (so a second cancel is rejected);
on success the Appointment becomes CANCELLED with reason, actor and
timestamp recorded, the bound slot becomes AVAILABLE with patient and
booking reference cleared, and the parent window's occupancy counter
becomes max 0 (c - 1): decremented by exactly one, floored at zero. -/
theorem c2_cancel_spec (db : DB) (appointment_id : Nat) (reason cancelled_by : String)
    (now : Int) (hwf : WellFormed db) (appt : Appointment)
    (hfind : findAppt db appointment_id = some appt) :
    ((∃ e, cancel_appointment db appointment_id reason cancelled_by now = .error e) ↔
       (appt.status = .CANCELLED ∨ appt.status = .COMPLETED)) ∧
    (∀ db2 a2,
       cancel_appointment db appointment_id reason cancelled_by now = .ok (some (db2, a2)) →
       a2.status = .CANCELLED ∧
       a2.cancellation_reason = some reason ∧
       a2.cancelled_by = some cancelled_by ∧
       a2.cancelled_at = some now ∧
       findAppt db2 appointment_id = some a2 ∧
       (∃ slot, findSlot db appt.slot_id = some slot ∧
          findSlot db2 appt.slot_id
            = some { slot with status := .AVAILABLE, patient_id := none,
                               booking_reference := none } ∧
          (∃ av, findAvail db slot.availability_id = some av ∧
             findAvail db2 slot.availability_id
               = some { av with
                   current_appointments := max 0 (av.current_appointments - 1) }))) := by
  obtain ⟨hnp, hna, hns, hnap, hfk_s, hfk_ap, hlt_a, hlt_s, hlt_ap⟩ := hwf
  have hmem : appt ∈ db.appointments := List.mem_of_find?_eq_some hfind
  obtain ⟨s0, hs0mem, hs0id⟩ := hfk_ap appt hmem
  obtain ⟨slot, hslot, hslotmem, hslotpred⟩ :=
    find?_some_of_mem db.slots (fun s => s.id == appt.slot_id) s0 hs0mem (by simp [hs0id])
  have hslot2 : findSlot db appt.slot_id = some slot := hslot
  have hslotid : slot.id = appt.slot_id := by simpa using hslotpred
  obtain ⟨av0, hav0mem, hav0id⟩ := hfk_s slot hslotmem
  obtain ⟨av, hav, havmem, havpred⟩ :=
    find?_some_of_mem db.availabilities (fun a => a.id == slot.availability_id)
      av0 hav0mem (by simp [hav0id])
  have hav2 : findAvail db slot.availability_id = some av := hav
  have havid : av.id = slot.availability_id := by simpa using havpred
  have happtid : appt.id = appointment_id := by simpa using List.find?_some hfind
  by_cases hterm : appt.status = .CANCELLED ∨ appt.status = .COMPLETED
  · have herr : cancel_appointment db appointment_id reason cancelled_by now
        = .error (.badRequest "Appointment cannot be cancelled") := by
      simp [cancel_appointment, hfind, hterm]
    refine ⟨⟨fun _ => hterm, fun _ => ⟨_, herr⟩⟩, ?_⟩
    intro db2 a2 hok
    rw [herr] at hok
    simp at hok
  · refine ⟨⟨?_, fun h => absurd h hterm⟩, ?_⟩
    · rintro ⟨e, he⟩
      simp [cancel_appointment, hfind, hterm, hslot2, hav2] at he
    · intro db2 a2 hok
      simp only [cancel_appointment, hfind, hterm, if_false, hslot2, hav2] at hok
      simp only [Except.ok.injEq, Option.some.injEq, Prod.mk.injEq] at hok
      obtain ⟨hdb2, ha2⟩ := hok
      subst hdb2
      subst ha2
      refine ⟨rfl, rfl, rfl, rfl, ?_, slot, hslot2, ?_, av, hav2, ?_⟩
      · show (updAppts db.appointments appt.id _).find? (fun a => a.id == appointment_id) = _
        rw [updAppts_find? _ _ _ (fun a _ haid => by simp [haid])]
        rw [show db.appointments.find? (fun a => a.id == appointment_id) = some appt from hfind]
        simp
      · show (updSlots db.slots slot.id _).find? (fun s => s.id == appt.slot_id) = _
        rw [updSlots_find? _ _ _ (fun s _ hsid => by simp [hsid])]
        rw [show db.slots.find? (fun s => s.id == appt.slot_id) = some slot from hslot2]
        simp
      · show (updAvails db.availabilities av.id _).find? (fun a => a.id == slot.availability_id) = _
        rw [updAvails_find? _ _ _ (fun a _ haid => by simp [haid])]
        rw [show db.availabilities.find? (fun a => a.id == slot.availability_id) = some av from hav2]
        simp

theorem c2_cancel_spec_witness :
    WellFormed dbBooked ∧ findAppt dbBooked 50 = some appt50 ∧
    ((∃ e, cancel_appointment dbBooked 50 "r" "patient" 0 = .error e) ↔
       (appt50.status = .CANCELLED ∨ appt50.status = .COMPLETED)) :=
  ⟨by decide, rfl,
   (c2_cancel_spec dbBooked 50 "r" "patient" 0 (by decide) appt50 rfl).1⟩

/-- C10 (implicit): when an appointment's currently bound slot is BOOKED
(the situation booking and reschedule establish) and the appointment is not
terminal, a reschedule naming that same slot as the new slot is rejected
with "New appointment slot is not available" and the committed state is
unchanged; consequently every successful reschedule targets a slot distinct
from the appointment's current one. -/
theorem c10_reschedule_same_slot (db : DB) (appointment_id : Nat)
    (appt : Appointment) (hfind : findAppt db appointment_id = some appt)
    (hlive : ¬(appt.status = .CANCELLED ∨ appt.status = .COMPLETED))
    (old_slot : AppointmentSlot) (hold : findSlot db appt.slot_id = some old_slot)
    (hbooked : old_slot.status = .BOOKED) :
    reschedule_appointment db appointment_id appt.slot_id
      = .error (.badRequest "New appointment slot is not available") ∧
    applyReschedule db appointment_id appt.slot_id = db ∧
    (∀ nsid db2 a2,
       reschedule_appointment db appointment_id nsid = .ok (some (db2, a2)) →
       nsid ≠ appt.slot_id) := by
  have herr : reschedule_appointment db appointment_id appt.slot_id
      = .error (.badRequest "New appointment slot is not available") := by
    simp [reschedule_appointment, hfind, hlive, hold, hbooked]
  refine ⟨herr, ?_, ?_⟩
  · simp [applyReschedule, herr]
  · intro nsid db2 a2 hok hns
    subst hns
    rw [herr] at hok
    simp at hok

theorem c10_reschedule_same_slot_witness :
    findAppt dbBooked 50 = some appt50 ∧
    ¬(appt50.status = .CANCELLED ∨ appt50.status = .COMPLETED) ∧
    findSlot dbBooked appt50.slot_id = some bookedSlot100 ∧
    bookedSlot100.status = .BOOKED ∧
    reschedule_appointment dbBooked 50 appt50.slot_id
      = .error (.badRequest "New appointment slot is not available") :=
  ⟨rfl, by decide, rfl, rfl,
   (c10_reschedule_same_slot dbBooked 50 appt50 rfl (by decide) bookedSlot100 rfl rfl).1⟩

/-- C3: the claim as stated is false at this input.  Rescheduling
appointment 50 from slot 100 (window 10, occupancy 1) to free slot 101
(window 11) succeeds, but window 10's current_appointments counter stays at
1 instead of being decremented to 0 as the claim ("its parent window's
occupancy counter decremented") requires. -/
theorem c3_reschedule_counterexample :
    isOk (reschedule_appointment dbBooked 50 101) = true ∧
    findAvail dbBooked 10 = some { window10 with current_appointments := 1 } ∧
    findAvail (applyReschedule dbBooked 50 101) 10
      = some { window10 with current_appointments := 1 } ∧
    (1 : Int) ≠ 1 - 1 :=
  ⟨rfl, rfl, rfl, by decide⟩

/-- C3 (amended): reschedule is rejected if the Appointment is CANCELLED or
COMPLETED, if the new slot does not exist, or if the new slot is not
AVAILABLE.  On success the old slot is released (AVAILABLE, patient and
booking reference cleared), the new slot becomes BOOKED carrying the same
patient and the same booking reference (preserved, not regenerated), and
the appointment is re-pointed at the new slot with the new slot's start and
end times and status RESCHEDULED — but no occupancy counter changes: the
availability table is left untouched, so the old window's counter is NOT
decremented. -/
theorem c3_reschedule_spec (db : DB) (appointment_id nsid : Nat)
    (appt : Appointment)
    (hfind : findAppt db appointment_id = some appt)
    (old_slot : AppointmentSlot) (hold : findSlot db appt.slot_id = some old_slot)
    (hbooked : old_slot.status = .BOOKED) :
    ((appt.status = .CANCELLED ∨ appt.status = .COMPLETED) →
       reschedule_appointment db appointment_id nsid
         = .error (.badRequest "Appointment cannot be rescheduled")) ∧
    (¬(appt.status = .CANCELLED ∨ appt.status = .COMPLETED) →
       findSlot db nsid = none →
       reschedule_appointment db appointment_id nsid
         = .error (.notFound "New appointment slot not found")) ∧
    (¬(appt.status = .CANCELLED ∨ appt.status = .COMPLETED) →
       ∀ ns, findSlot db nsid = some ns → ns.status ≠ .AVAILABLE →
       reschedule_appointment db appointment_id nsid
         = .error (.badRequest "New appointment slot is not available")) ∧
    (∀ db2 a2,
       reschedule_appointment db appointment_id nsid = .ok (some (db2, a2)) →
       ∃ ns, findSlot db nsid = some ns ∧ ns.status = .AVAILABLE ∧ nsid ≠ appt.slot_id ∧
         a2 = { appt with
                  slot_id := nsid
                  scheduled_start_time := ns.slot_start_time
                  scheduled_end_time := ns.slot_end_time
                  status := .RESCHEDULED } ∧
         findAppt db2 appointment_id = some a2 ∧
         findSlot db2 appt.slot_id
           = some { old_slot with status := .AVAILABLE, patient_id := none,
                                  booking_reference := none } ∧
         findSlot db2 nsid
           = some { ns with status := .BOOKED, patient_id := some appt.patient_id,
                            booking_reference := some appt.booking_reference } ∧
         db2.availabilities = db.availabilities) := by
  have holdid : old_slot.id = appt.slot_id := by
    simpa using List.find?_some hold
  refine ⟨?_, ?_, ?_, ?_⟩
  · intro hterm
    simp [reschedule_appointment, hfind, hterm]
  · intro hterm hnone
    simp [reschedule_appointment, hfind, hterm, hnone]
  · intro hterm ns hns hstat
    simp [reschedule_appointment, hfind, hterm, hns, hstat]
  · intro db2 a2 hok
    by_cases hterm : appt.status = .CANCELLED ∨ appt.status = .COMPLETED
    · simp [reschedule_appointment, hfind, hterm] at hok
    cases hns : findSlot db nsid with
    | none => simp [reschedule_appointment, hfind, hterm, hns] at hok
    | some ns =>
      have hnsid : ns.id = nsid := by simpa using List.find?_some hns
      by_cases hstat : ns.status = .AVAILABLE
      · have hne : nsid ≠ appt.slot_id := by
          intro h
          rw [h, hold] at hns
          cases hns
          rw [hstat] at hbooked
          cases hbooked
        simp only [reschedule_appointment, hfind, hterm, if_false, hns, hstat,
          ne_eq, not_true_eq_false, if_true, hold] at hok
        simp only [Except.ok.injEq, Option.some.injEq, Prod.mk.injEq] at hok
        obtain ⟨hdb2, ha2⟩ := hok
        subst hdb2
        subst ha2
        refine ⟨ns, rfl, hstat, hne, rfl, ?_, ?_, ?_, rfl⟩
        · show (updAppts db.appointments appt.id _).find? (fun a => a.id == appointment_id) = _
          rw [updAppts_find? _ _ _ (fun a _ haid => by simp [haid])]
          rw [show db.appointments.find? (fun a => a.id == appointment_id) = some appt from hfind]
          simp
        · show (updSlots (updSlots db.slots old_slot.id _) nsid _).find?
              (fun s => s.id == appt.slot_id) = _
          rw [updSlots_find? _ _ _ (fun s _ hsid => by simp [hsid])]
          rw [updSlots_find? _ _ _ (fun s _ hsid => by simp [hsid])]
          rw [show db.slots.find? (fun s => s.id == appt.slot_id) = some old_slot from hold]
          simp [holdid, hne.symm]
        · show (updSlots (updSlots db.slots old_slot.id _) nsid _).find?
              (fun s => s.id == nsid) = _
          rw [updSlots_find? _ _ _ (fun s _ hsid => by simp [hsid])]
          rw [updSlots_find? _ _ _ (fun s _ hsid => by simp [hsid])]
          rw [show db.slots.find? (fun s => s.id == nsid) = some ns from hns]
          have hne2 : ¬ nsid = old_slot.id := by
            rw [holdid]
            exact hne
          simp [hnsid, hne2]
      · simp [reschedule_appointment, hfind, hterm, hns, hstat] at hok

theorem c3_reschedule_spec_witness :
    findAppt dbBooked 50 = some appt50 ∧
    findSlot dbBooked appt50.slot_id = some bookedSlot100 ∧
    bookedSlot100.status = .BOOKED ∧
    (∀ db2 a2,
       reschedule_appointment dbBooked 50 101 = .ok (some (db2, a2)) →
       ∃ ns, findSlot dbBooked 101 = some ns ∧ ns.status = .AVAILABLE ∧
         101 ≠ appt50.slot_id ∧
         a2 = { appt50 with
                  slot_id := 101
                  scheduled_start_time := ns.slot_start_time
                  scheduled_end_time := ns.slot_end_time
                  status := .RESCHEDULED } ∧
         findAppt db2 50 = some a2 ∧
         findSlot db2 appt50.slot_id
           = some { bookedSlot100 with status := .AVAILABLE, patient_id := none,
                                       booking_reference := none } ∧
         findSlot db2 101
           = some { ns with status := .BOOKED, patient_id := some appt50.patient_id,
                            booking_reference := some appt50.booking_reference } ∧
         db2.availabilities = dbBooked.availabilities) :=
  ⟨rfl, rfl, rfl,
   (c3_reschedule_spec dbBooked 50 101 appt50 rfl bookedSlot100 rfl rfl).2.2.2⟩

/-- Booking one AVAILABLE slot and appending its live appointment preserves
the slot/appointment consistency invariant. -/
theorem consistency_book {P : List Provider} {Q : List Nat}
    {A : List ProviderAvailability} {n : Nat}
    {slots : List AppointmentSlot} {appts : List Appointment}
    {slot : AppointmentSlot} {apptE : Appointment}
    {f : AppointmentSlot → AppointmentSlot}
    (hnodup : (slots.map (fun s => s.id)).Nodup)
    (hm : slot ∈ slots) (hstat : slot.status = .AVAILABLE)
    (hid : apptE.slot_id = slot.id)
    (hlive1 : apptE.status ≠ .CANCELLED) (hlive2 : apptE.status ≠ .COMPLETED)
    (hf_id : ∀ s, (f s).id = s.id) (hf_st : ∀ s, (f s).status = .BOOKED)
    (h1 : ∀ s ∈ slots, s.status = .BOOKED →
       ∃ ap ∈ appts, ap.slot_id = s.id ∧ ap.status ≠ .CANCELLED ∧ ap.status ≠ .COMPLETED)
    (h2 : ∀ ap ∈ appts, ap.status ≠ .CANCELLED → ap.status ≠ .COMPLETED →
       ∃ s ∈ slots, s.id = ap.slot_id ∧ s.status = .BOOKED) :
    SlotApptConsistent
      { providers := P, patients := Q, availabilities := A
        slots := updSlots slots slot.id f
        appointments := appts ++ [apptE], next_id := n } := by
  constructor
  · intro s2 hs2 hb
    obtain ⟨s, hsmem, hseq⟩ := List.mem_map.mp (by simpa [updSlots] using hs2)
    by_cases hsid : s.id = slot.id
    · refine ⟨apptE, List.mem_append_right _ (List.mem_singleton_self _), ?_, hlive1, hlive2⟩
      have hs2id : s2.id = s.id := by
        rw [← hseq]
        simp [hsid, hf_id]
      rw [hid, hs2id]
      exact hsid.symm
    · rw [if_neg hsid] at hseq
      subst hseq
      obtain ⟨ap, hapmem, hapid, hl1, hl2⟩ := h1 s hsmem hb
      exact ⟨ap, List.mem_append_left _ hapmem, hapid, hl1, hl2⟩
  · intro ap hap hl1 hl2
    rcases List.mem_append.mp hap with hold | hnew
    · obtain ⟨s, hsmem, hsid2, hsb⟩ := h2 ap hold hl1 hl2
      have hsne : ¬ s.id = slot.id := by
        intro h
        have hss : s = slot := List.inj_on_of_nodup_map hnodup hsmem hm h
        rw [hss, hstat] at hsb
        cases hsb
      refine ⟨s, ?_, hsid2, hsb⟩
      have hmm := List.mem_map_of_mem (fun s => if s.id = slot.id then f s else s) hsmem
      simpa [updSlots, hsne] using hmm
    · have hae : ap = apptE := List.mem_singleton.mp hnew
      subst hae
      refine ⟨f slot, ?_, ?_, hf_st slot⟩
      · have hmm := List.mem_map_of_mem (fun s => if s.id = slot.id then f s else s) hm
        simpa [updSlots] using hmm
      · rw [hf_id, hid]

/-- C1: booking fails with Not Found when the slot does not exist; is
rejected with "Appointment slot is not available" when the slot exists in a
non-AVAILABLE status; and on success the slot becomes BOOKED with the
patient bound and the booking reference set, the parent window's
current_appointments counter is incremented by one, and exactly one new
Appointment is appended, in SCHEDULED status, with base_fee and currency
copied from the parent window's pricing.  The operation is atomic (an error
leaves the state unchanged by construction), and it preserves the
slot/appointment consistency invariant: no reachable state has a BOOKED
slot without a live Appointment, or a live Appointment whose slot is not
BOOKED. -/
theorem c1_booking_spec (db : DB) (patient_id : Nat) (a : AppointmentCreate)
    (hwf : WellFormed db) :
    (findSlot db a.slot_id = none →
       ∃ d, create_appointment db patient_id a = .error (.notFound d)) ∧
    (patient_id ∈ db.patients →
       ∀ slot, findSlot db a.slot_id = some slot → slot.status ≠ .AVAILABLE →
       create_appointment db patient_id a
         = .error (.badRequest "Appointment slot is not available")) ∧
    (∀ db2 appt, create_appointment db patient_id a = .ok (db2, appt) →
       appt.status = .SCHEDULED ∧
       db2.appointments = db.appointments ++ [appt] ∧
       appt.patient_id = patient_id ∧
       appt.slot_id = a.slot_id ∧
       (∃ slot, findSlot db a.slot_id = some slot ∧ slot.status = .AVAILABLE ∧
          findSlot db2 a.slot_id
            = some { slot with status := .BOOKED, patient_id := some patient_id,
                               booking_reference := some appt.booking_reference } ∧
          (∃ av, findAvail db slot.availability_id = some av ∧
             findAvail db2 slot.availability_id
               = some { av with
                   current_appointments := av.current_appointments + 1 } ∧
             appt.base_fee
               = (match av.pricing with | some p => p.base_fee.getD 0 | none => 0) ∧
             appt.currency
               = (match av.pricing with | some p => p.currency.getD "USD" | none => "USD")))) ∧
    (SlotApptConsistent db →
       SlotApptConsistent (applyCreateAppointment db patient_id a)) := by
  obtain ⟨hnp, hna, hns, hnap, hfk_s, hfk_ap, hlt_a, hlt_s, hlt_ap⟩ := hwf
  refine ⟨?_, ?_, ?_, ?_⟩
  · intro hnone
    by_cases hp : patient_id ∈ db.patients
    · exact ⟨"Appointment slot not found", by simp [create_appointment, hp, hnone]⟩
    · exact ⟨"Patient not found", by simp [create_appointment, hp]⟩
  · intro hp slot hslot hstat
    simp [create_appointment, hp, hslot, hstat]
  · intro db2 appt hok
    by_cases hp : patient_id ∈ db.patients
    · cases hslot : findSlot db a.slot_id with
      | none => simp [create_appointment, hp, hslot] at hok
      | some slot =>
        have hslotid : slot.id = a.slot_id := by simpa using List.find?_some hslot
        have hslotmem : slot ∈ db.slots := List.mem_of_find?_eq_some hslot
        by_cases hstat : slot.status = .AVAILABLE
        · cases hprov : db.providers.find? (fun p => p.id == slot.provider_id) with
          | none => simp [create_appointment, hp, hslot, hstat, hprov] at hok
          | some prov =>
            obtain ⟨av0, hav0mem, hav0id⟩ := hfk_s slot hslotmem
            obtain ⟨av, hav, havmem, havpred⟩ :=
              find?_some_of_mem db.availabilities (fun x => x.id == slot.availability_id)
                av0 hav0mem (by simp [hav0id])
            have hav2 : findAvail db slot.availability_id = some av := hav
            simp only [create_appointment, hp, hslot, hstat, hprov, hav2,
              not_true_eq_false, if_false, Except.ok.injEq, Prod.mk.injEq] at hok
            rw [if_neg (by simp)] at hok
            simp only [Except.ok.injEq, Prod.mk.injEq] at hok
            obtain ⟨hdb2, happt⟩ := hok
            subst hdb2
            subst happt
            refine ⟨rfl, rfl, rfl, rfl, slot, rfl, hstat, ?_, av, hav2, ?_, rfl, rfl⟩
            · show (updSlots db.slots slot.id _).find? (fun s => s.id == a.slot_id) = _
              rw [updSlots_find? _ _ _ (fun s _ hsid => by simp [hsid])]
              rw [show db.slots.find? (fun s => s.id == a.slot_id) = some slot from hslot]
              simp
            · show (updAvails db.availabilities av.id _).find?
                  (fun x => x.id == slot.availability_id) = _
              rw [updAvails_find? _ _ _ (fun x _ hxid => by simp [hxid])]
              rw [show db.availabilities.find? (fun x => x.id == slot.availability_id)
                    = some av from hav2]
              simp
        · simp [create_appointment, hp, hslot, hstat] at hok
    · simp [create_appointment, hp] at hok
  · intro hcons
    cases hres : create_appointment db patient_id a with
    | error e => simpa [applyCreateAppointment, hres] using hcons
    | ok pr =>
      obtain ⟨db2, appt⟩ := pr
      have happly : applyCreateAppointment db patient_id a = db2 := by
        simp [applyCreateAppointment, hres]
      rw [happly]
      by_cases hp : patient_id ∈ db.patients
      · cases hslot : findSlot db a.slot_id with
        | none => simp [create_appointment, hp, hslot] at hres
        | some slot =>
          have hslotid : slot.id = a.slot_id := by simpa using List.find?_some hslot
          have hslotmem : slot ∈ db.slots := List.mem_of_find?_eq_some hslot
          by_cases hstat : slot.status = .AVAILABLE
          · cases hprov : db.providers.find? (fun p => p.id == slot.provider_id) with
            | none => simp [create_appointment, hp, hslot, hstat, hprov] at hres
            | some prov =>
              obtain ⟨av0, hav0mem, hav0id⟩ := hfk_s slot hslotmem
              obtain ⟨av, hav, havmem, havpred⟩ :=
                find?_some_of_mem db.availabilities (fun x => x.id == slot.availability_id)
                  av0 hav0mem (by simp [hav0id])
              have hav2 : findAvail db slot.availability_id = some av := hav
              simp only [create_appointment, hp, hslot, hstat, hprov, hav2,
                not_true_eq_false, if_false, Except.ok.injEq, Prod.mk.injEq] at hres
              rw [if_neg (by simp)] at hres
              simp only [Except.ok.injEq, Prod.mk.injEq] at hres
              obtain ⟨hdb2, happt⟩ := hres
              subst hdb2
              exact consistency_book hns hslotmem hstat hslotid.symm
                (fun h => nomatch h) (fun h => nomatch h)
                (fun s => rfl) (fun s => rfl) hcons.1 hcons.2
          · simp [create_appointment, hp, hslot, hstat] at hres
      · simp [create_appointment, hp] at hres

theorem c1_booking_spec_witness :
    WellFormed dbForBook ∧
    (SlotApptConsistent dbForBook →
       SlotApptConsistent (applyCreateAppointment dbForBook 7 bookReq)) ∧
    (7 ∈ dbForBook.patients →
       ∀ slot, findSlot dbForBook bookReq.slot_id = some slot →
         slot.status ≠ .AVAILABLE →
         create_appointment dbForBook 7 bookReq
           = .error (.badRequest "Appointment slot is not available")) :=
  ⟨by decide,
   (c1_booking_spec dbForBook 7 bookReq (by decide)).2.2.2,
   (c1_booking_spec dbForBook 7 bookReq (by decide)).2.1⟩

/- Facts about one step of the window/slot creation pipeline. -/

theorem generate_length (w : ProviderAvailability) (sc : Int) (tz : String) (base : Nat) :
    (generate_appointment_slots w sc tz base).length = sc.toNat := by
  simp [generate_appointment_slots]

theorem generate_avail_id (w : ProviderAvailability) (sc : Int) (tz : String) (base : Nat) :
    ∀ s ∈ generate_appointment_slots w sc tz base, s.availability_id = w.id := by
  intro s hs
  simp only [generate_appointment_slots, List.mem_map] at hs
  obtain ⟨i, hi, heq⟩ := hs
  rw [← heq]

theorem cws_providers (db : DB) (pid : Nat) (a : AvailabilityCreate) (sc : Int) (d : PDate) :
    (createWindowAndSlots db pid a sc d).1.providers = db.providers := rfl

theorem cws_patients (db : DB) (pid : Nat) (a : AvailabilityCreate) (sc : Int) (d : PDate) :
    (createWindowAndSlots db pid a sc d).1.patients = db.patients := rfl

theorem cws_appointments (db : DB) (pid : Nat) (a : AvailabilityCreate) (sc : Int) (d : PDate) :
    (createWindowAndSlots db pid a sc d).1.appointments = db.appointments := rfl

theorem cws_avails (db : DB) (pid : Nat) (a : AvailabilityCreate) (sc : Int) (d : PDate) :
    (createWindowAndSlots db pid a sc d).1.availabilities
      = db.availabilities ++ [(createWindowAndSlots db pid a sc d).2] := rfl

theorem cws_slots (db : DB) (pid : Nat) (a : AvailabilityCreate) (sc : Int) (d : PDate) :
    (createWindowAndSlots db pid a sc d).1.slots
      = db.slots ++ generate_appointment_slots (createWindowAndSlots db pid a sc d).2
          sc a.timezone ((createWindowAndSlots db pid a sc d).2.id + 1) := rfl

theorem cws_next (db : DB) (pid : Nat) (a : AvailabilityCreate) (sc : Int) (d : PDate) :
    (createWindowAndSlots db pid a sc d).1.next_id
      = db.next_id + 1 + (generate_appointment_slots (createWindowAndSlots db pid a sc d).2
          sc a.timezone ((createWindowAndSlots db pid a sc d).2.id + 1)).length := rfl

theorem cws_w_id (db : DB) (pid : Nat) (a : AvailabilityCreate) (sc : Int) (d : PDate) :
    (createWindowAndSlots db pid a sc d).2.id = db.next_id := rfl

theorem cws_w_date (db : DB) (pid : Nat) (a : AvailabilityCreate) (sc : Int) (d : PDate) :
    (createWindowAndSlots db pid a sc d).2.date = d := rfl

theorem cws_w_fields (db : DB) (pid : Nat) (a : AvailabilityCreate) (sc : Int) (d : PDate) :
    (createWindowAndSlots db pid a sc d).2.provider_id = pid ∧
    (createWindowAndSlots db pid a sc d).2.start_time = a.start_time ∧
    (createWindowAndSlots db pid a sc d).2.end_time = a.end_time ∧
    (createWindowAndSlots db pid a sc d).2.timezone = a.timezone ∧
    (createWindowAndSlots db pid a sc d).2.slot_duration = a.slot_duration ∧
    (createWindowAndSlots db pid a sc d).2.break_duration = a.break_duration ∧
    (createWindowAndSlots db pid a sc d).2.status = .AVAILABLE ∧
    (createWindowAndSlots db pid a sc d).2.current_appointments = 0 ∧
    (createWindowAndSlots db pid a sc d).2.pricing = a.pricing ∧
    (createWindowAndSlots db pid a sc d).2.appointment_type = a.appointment_type :=
  ⟨rfl, rfl, rfl, rfl, rfl, rfl, rfl, rfl, rfl, rfl⟩

/-- Induction workhorse for crud.create_provider_availability's per-date
loop: the final state extends the initial one with exactly one window per
occurrence date (fields copied from the request, fresh ids) and, for each
created window, exactly its generated slot batch of length
slots_count.toNat. -/
theorem createLoop_spec (provider_id : Nat) (a : AvailabilityCreate) (sc : Int) :
    ∀ (ds : List PDate) (db fdb : DB) (wins : List ProviderAvailability) (cnt : Nat),
    createLoop provider_id a sc db ds = (fdb, wins, cnt) →
    (∀ s ∈ db.slots, s.availability_id < db.next_id) →
    fdb.providers = db.providers ∧
    fdb.patients = db.patients ∧
    fdb.appointments = db.appointments ∧
    fdb.availabilities = db.availabilities ++ wins ∧
    wins.map (fun w => w.date) = ds ∧
    cnt = ds.length * sc.toNat ∧
    db.next_id ≤ fdb.next_id ∧
    (∀ w ∈ wins, db.next_id ≤ w.id ∧ w.id < fdb.next_id) ∧
    (∀ w ∈ wins,
       w.provider_id = provider_id ∧ w.start_time = a.start_time ∧
       w.end_time = a.end_time ∧ w.timezone = a.timezone ∧
       w.slot_duration = a.slot_duration ∧ w.break_duration = a.break_duration ∧
       w.status = .AVAILABLE ∧ w.current_appointments = 0 ∧
       w.pricing = a.pricing ∧ w.appointment_type = a.appointment_type) ∧
    (∃ newSlots, fdb.slots = db.slots ++ newSlots ∧
       (∀ s ∈ newSlots, ∃ w ∈ wins, s.availability_id = w.id ∧
          s ∈ generate_appointment_slots w sc a.timezone (w.id + 1)) ∧
       (∀ w ∈ wins, fdb.slots.filter (fun s => s.availability_id == w.id)
          = generate_appointment_slots w sc a.timezone (w.id + 1))) := by
  intro ds
  induction ds with
  | nil =>
    intro db fdb wins cnt heq hpre
    simp only [createLoop, Prod.mk.injEq] at heq
    obtain ⟨h1, h2, h3⟩ := heq
    subst h1; subst h2; subst h3
    refine ⟨rfl, rfl, rfl, by simp, rfl, by simp, le_refl _, by simp, by simp, [], by simp,
      by simp, by simp⟩
  | cons d t ih =>
    intro db fdb wins cnt heq hpre
    simp only [createLoop, Prod.mk.injEq] at heq
    obtain ⟨h1, h2, h3⟩ := heq
    have hpre1 : ∀ s ∈ (createWindowAndSlots db provider_id a sc d).1.slots,
        s.availability_id < (createWindowAndSlots db provider_id a sc d).1.next_id := by
      intro s hs
      rw [cws_slots] at hs
      rw [cws_next]
      rcases List.mem_append.mp hs with hl | hr
      · have := hpre s hl
        omega
      · have := generate_avail_id _ _ _ _ s hr
        rw [this, cws_w_id]
        omega
    have IH := ih (createWindowAndSlots db provider_id a sc d).1
      (createLoop provider_id a sc (createWindowAndSlots db provider_id a sc d).1 t).1
      (createLoop provider_id a sc (createWindowAndSlots db provider_id a sc d).1 t).2.1
      (createLoop provider_id a sc (createWindowAndSlots db provider_id a sc d).1 t).2.2
      rfl hpre1
    obtain ⟨ihp, ihpat, ihapp, ihav, ihdates, ihcnt, ihnext, ihids, ihfields,
      newS, ihslots, ihmem, ihfilter⟩ := IH
    subst h1; subst h2; subst h3
    have hWnext : db.next_id < (createWindowAndSlots db provider_id a sc d).1.next_id := by
      rw [cws_next]; omega
    refine ⟨by rw [ihp, cws_providers], by rw [ihpat, cws_patients],
      by rw [ihapp, cws_appointments], ?_, ?_, ?_, ?_, ?_, ?_, ?_⟩
    · rw [ihav, cws_avails, List.append_assoc]
      rfl
    · simp only [List.map_cons, ihdates, cws_w_date]
    · simp only [List.length_cons, ihcnt]
      ring
    · calc db.next_id ≤ (createWindowAndSlots db provider_id a sc d).1.next_id :=
            le_of_lt hWnext
        _ ≤ _ := ihnext
    · intro w hw
      rcases List.mem_cons.mp hw with hhd | htl
      · subst hhd
        rw [cws_w_id]
        exact ⟨le_refl _, lt_of_lt_of_le hWnext ihnext⟩
      · obtain ⟨hlo, hhi⟩ := ihids w htl
        exact ⟨le_trans (le_of_lt hWnext) hlo, hhi⟩
    · intro w hw
      rcases List.mem_cons.mp hw with hhd | htl
      · subst hhd
        exact cws_w_fields db provider_id a sc d
      · exact ihfields w htl
    · refine ⟨generate_appointment_slots (createWindowAndSlots db provider_id a sc d).2
          sc a.timezone ((createWindowAndSlots db provider_id a sc d).2.id + 1) ++ newS,
        ?_, ?_, ?_⟩
      · rw [ihslots, cws_slots, List.append_assoc]
      · intro s hs
        rcases List.mem_append.mp hs with hl | hr
        · exact ⟨(createWindowAndSlots db provider_id a sc d).2, List.mem_cons_self _ _,
            generate_avail_id _ _ _ _ s hl, hl⟩
        · obtain ⟨w, hwmem, hwid, hwgen⟩ := ihmem s hr
          exact ⟨w, List.mem_cons_of_mem _ hwmem, hwid, hwgen⟩
      · intro w hw
        rcases List.mem_cons.mp hw with hhd | htl
        · subst hhd
          rw [ihslots, cws_slots, List.filter_append, List.filter_append]
          have hdbnil : db.slots.filter
              (fun s => s.availability_id == (createWindowAndSlots db provider_id a sc d).2.id)
              = [] := by
            rw [List.filter_eq_nil_iff]
            intro s hs
            have := hpre s hs
            rw [cws_w_id]
            simp only [beq_iff_eq]
            omega
          have hgenall : (generate_appointment_slots (createWindowAndSlots db provider_id a sc d).2
              sc a.timezone ((createWindowAndSlots db provider_id a sc d).2.id + 1)).filter
              (fun s => s.availability_id == (createWindowAndSlots db provider_id a sc d).2.id)
              = generate_appointment_slots (createWindowAndSlots db provider_id a sc d).2
                  sc a.timezone ((createWindowAndSlots db provider_id a sc d).2.id + 1) := by
            rw [List.filter_eq_self]
            intro s hs
            have := generate_avail_id _ _ _ _ s hs
            simp [this]
          have hnewnil : newS.filter
              (fun s => s.availability_id == (createWindowAndSlots db provider_id a sc d).2.id)
              = [] := by
            rw [List.filter_eq_nil_iff]
            intro s hs
            obtain ⟨w2, hw2mem, hw2id, _⟩ := ihmem s hs
            obtain ⟨hlo, _⟩ := ihids w2 hw2mem
            simp only [beq_iff_eq]
            rw [hw2id, cws_w_id]
            have : db.next_id < (createWindowAndSlots db provider_id a sc d).1.next_id := hWnext
            omega
          rw [hdbnil, hgenall, hnewnil, List.append_nil, List.nil_append]
        · exact ihfilter w htl

/-- C4: for a valid window (end after start) that passes the provider,
conflict and recurrence stages, the number of slots created per occurrence
date is floor(window_minutes / (slot_duration + break_duration)) with
window_minutes = (end.hour*60+end.minute) - (start.hour*60+start.minute) —
independently for every materialized occurrence date — and a request whose
slot_duration + break_duration is not positive is rejected as invalid
configuration, creating nothing. -/
theorem c4_slot_count (db : DB) (pid : Nat) (a : AvailabilityCreate)
    (hwf : WellFormed db)
    (prov : Provider) (hprov : db.providers.find? (fun p => p.id == pid) = some prov)
    (hconf : conflictingWindow db pid a = none)
    (ds : List PDate) (hdates : datesToCreate a = .ok ds) (hne : ds ≠ []) :
    (a.slot_duration + a.break_duration ≤ 0 →
       create_provider_availability db pid a
         = .error (.badRequest "Invalid slot duration or break duration")) ∧
    (0 < a.slot_duration + a.break_duration →
     a.start_time.toMinutes < a.end_time.toMinutes →
       ∃ db2 res, create_provider_availability db pid a = .ok (db2, res) ∧
         (res.slots_created : Int)
           = ds.length * Int.fdiv (a.end_time.toMinutes - a.start_time.toMinutes)
               (a.slot_duration + a.break_duration) ∧
         (∃ newWins, db2.availabilities = db.availabilities ++ newWins ∧
            newWins.length = ds.length ∧
            ∀ w ∈ newWins,
              ((db2.slots.filter (fun s => s.availability_id == w.id)).length : Int)
                = Int.fdiv (a.end_time.toMinutes - a.start_time.toMinutes)
                    (a.slot_duration + a.break_duration))) := by
  obtain ⟨hnp, hna, hns, hnap, hfk_s, hfk_ap, hlt_a, hlt_s, hlt_ap⟩ := hwf
  obtain ⟨d0, rest, rfl⟩ : ∃ d0 rest, ds = d0 :: rest := by
    cases ds with
    | nil => exact absurd rfl hne
    | cons x xs => exact ⟨x, xs, rfl⟩
  constructor
  · intro heff
    simp [create_provider_availability, hprov, hconf, hdates, heff]
  · intro heff hlt
    have hpre : ∀ s ∈ db.slots, s.availability_id < db.next_id := by
      intro s hs
      obtain ⟨av, havmem, havid⟩ := hfk_s s hs
      have := hlt_a av havmem
      omega
    have hok : create_provider_availability db pid a
        = .ok ((createLoop pid a
                 (Int.fdiv (a.end_time.toMinutes - a.start_time.toMinutes)
                   (a.slot_duration + a.break_duration)) db (d0 :: rest)).1,
               { availability_id :=
                   match (createLoop pid a
                       (Int.fdiv (a.end_time.toMinutes - a.start_time.toMinutes)
                         (a.slot_duration + a.break_duration)) db (d0 :: rest)).2.1 with
                   | [] => 0
                   | w :: _ => w.id
                 slots_created := (createLoop pid a
                     (Int.fdiv (a.end_time.toMinutes - a.start_time.toMinutes)
                       (a.slot_duration + a.break_duration)) db (d0 :: rest)).2.2
                 date_range_start := dateListMin (d0 :: rest)
                 date_range_end := dateListMax (d0 :: rest)
                 total_appointments_available := (createLoop pid a
                     (Int.fdiv (a.end_time.toMinutes - a.start_time.toMinutes)
                       (a.slot_duration + a.break_duration)) db (d0 :: rest)).2.2 }) := by
      simp only [create_provider_availability, hprov, hconf, hdates]
      rw [if_neg (by omega)]
    have hloop := createLoop_spec pid a
      (Int.fdiv (a.end_time.toMinutes - a.start_time.toMinutes)
        (a.slot_duration + a.break_duration)) (d0 :: rest) db
      (createLoop pid a (Int.fdiv (a.end_time.toMinutes - a.start_time.toMinutes)
        (a.slot_duration + a.break_duration)) db (d0 :: rest)).1
      (createLoop pid a (Int.fdiv (a.end_time.toMinutes - a.start_time.toMinutes)
        (a.slot_duration + a.break_duration)) db (d0 :: rest)).2.1
      (createLoop pid a (Int.fdiv (a.end_time.toMinutes - a.start_time.toMinutes)
        (a.slot_duration + a.break_duration)) db (d0 :: rest)).2.2
      rfl hpre
    obtain ⟨ihp, ihpat, ihapp, ihav, ihdates2, ihcnt, ihnext, ihids, ihfields,
      newS, ihslots, ihmem, ihfilter⟩ := hloop
    have hscnn : 0 ≤ Int.fdiv (a.end_time.toMinutes - a.start_time.toMinutes)
        (a.slot_duration + a.break_duration) := by
      rw [Int.fdiv_eq_ediv _ (by omega)]
      exact Int.ediv_nonneg (by omega) (by omega)
    refine ⟨_, _, hok, ?_, (createLoop pid a
        (Int.fdiv (a.end_time.toMinutes - a.start_time.toMinutes)
          (a.slot_duration + a.break_duration)) db (d0 :: rest)).2.1,
      ihav, ?_, ?_⟩
    · show ((createLoop pid a _ db (d0 :: rest)).2.2 : Int) = _
      rw [ihcnt]
      push_cast [Int.toNat_of_nonneg hscnn]
      ring
    · have := congrArg List.length ihdates2
      simpa using this
    · intro w hw
      rw [ihfilter w hw, generate_length]
      rw [Int.toNat_of_nonneg hscnn]

theorem c4_slot_count_witness :
    (0 : Int) < reqBase.slot_duration + reqBase.break_duration ∧
    (∃ db2 res, create_provider_availability dbEmpty 1 reqBase = .ok (db2, res) ∧
       (res.slots_created : Int)
         = 1 * Int.fdiv (reqBase.end_time.toMinutes - reqBase.start_time.toMinutes)
             (reqBase.slot_duration + reqBase.break_duration)) := by
  refine ⟨by decide, ?_⟩
  obtain ⟨db2, res, hok, hcnt, -⟩ :=
    (c4_slot_count dbEmpty 1 reqBase (by decide) provider1 rfl rfl [feb15] rfl
      (by simp)).2 (by decide) (by decide)
  exact ⟨db2, res, hok, by simpa using hcnt⟩

/-- The only error datesToCreate can raise is the invalid-pattern one. -/
theorem datesToCreate_error (a : AvailabilityCreate) (e : ApiError)
    (h : datesToCreate a = .error e) : e = .badRequest "Invalid recurrence pattern" := by
  unfold datesToCreate at h
  by_cases h1 : (a.is_recurring && patternTruthy a.recurrence_pattern
      && a.recurrence_end_date.isSome) = true
  · rw [if_pos h1] at h
    by_cases h2 : a.recurrence_pattern = some "daily"
    · rw [if_pos h2] at h; cases h
    · rw [if_neg h2] at h
      by_cases h3 : a.recurrence_pattern = some "weekly"
      · rw [if_pos h3] at h; cases h
      · rw [if_neg h3] at h
        by_cases h4 : a.recurrence_pattern = some "monthly"
        · rw [if_pos h4] at h; cases h
        · rw [if_neg h4] at h
          injection h with h5
          exact h5.symm
  · rw [if_neg h1] at h
    cases h

/-- C5: false as stated.  reqC5 is a daily recurrence over feb15-feb16 and
provider 1 already has window5 on feb16 with a (wall-clock) overlapping
09:00-17:00 range in AVAILABLE status, so by the claim the whole request
must be rejected; but the conflict scan only looks at the request's own
first date (feb15), so creation succeeds and commits two further windows —
one of them overlapping window5 on feb16. -/
theorem c5_conflict_counterexample :
    datesToCreate reqC5 = .ok [feb15, feb16] ∧
    window5.provider_id = 1 ∧ window5.date = feb16 ∧
    window5.status = .AVAILABLE ∧
    reqC5.start_time.toMinutes < window5.end_time.toMinutes ∧
    window5.start_time.toMinutes < reqC5.end_time.toMinutes ∧
    isOk (create_provider_availability dbC5 1 reqC5) = true ∧
    (applyCreateAvailability dbC5 1 reqC5).availabilities.length = 3 := by
  refine ⟨rfl, rfl, rfl, rfl, by decide, by decide, rfl, rfl⟩

/-- C5 (amended): the conflict check runs exactly once, against the
provider's existing AVAILABLE/BOOKED windows on the request's own (first)
date, with the half-open overlap test; when it fires the whole request is
rejected with the conflicting window's time range and nothing is created.
The only other rejections of availability creation are the invalid
recurrence pattern and the invalid slot/break duration; occurrence dates
beyond the first are never conflict-checked, so a recurring request whose
later occurrences overlap existing windows still succeeds. -/
theorem c5_conflict_spec (db : DB) (pid : Nat) (a : AvailabilityCreate)
    (prov : Provider) (hprov : db.providers.find? (fun p => p.id == pid) = some prov) :
    (∀ w, conflictingWindow db pid a = some w →
       create_provider_availability db pid a = .error (.badRequest (conflictMsg w)) ∧
       isConflicting pid a w ∧ w ∈ db.availabilities ∧
       applyCreateAvailability db pid a = db) ∧
    (∀ d, create_provider_availability db pid a = .error (.badRequest d) →
       (∃ w ∈ db.availabilities, isConflicting pid a w ∧ d = conflictMsg w) ∨
       d = "Invalid recurrence pattern" ∨
       d = "Invalid slot duration or break duration") ∧
    (conflictingWindow db pid a = none →
       ∀ ds, datesToCreate a = .ok ds → ds ≠ [] →
       0 < a.slot_duration + a.break_duration →
       ∃ db2 res, create_provider_availability db pid a = .ok (db2, res)) := by
  refine ⟨?_, ?_, ?_⟩
  · intro w hw
    have hw2 : db.availabilities.find? (fun ex => decide (isConflicting pid a ex)) = some w := hw
    have hmem : w ∈ db.availabilities := List.mem_of_find?_eq_some hw2
    have hp0 := List.find?_some hw2
    have hpred : isConflicting pid a w := of_decide_eq_true (by simpa using hp0)
    have herr : create_provider_availability db pid a
        = .error (.badRequest (conflictMsg w)) := by
      simp [create_provider_availability, hprov, hw]
    exact ⟨herr, hpred, hmem, by simp [applyCreateAvailability, herr]⟩
  · intro d hd
    cases hconf : conflictingWindow db pid a with
    | some w =>
      left
      have hconf2 : db.availabilities.find? (fun ex => decide (isConflicting pid a ex))
          = some w := hconf
      have hp1 := List.find?_some hconf2
      have hpred : isConflicting pid a w := of_decide_eq_true (by simpa using hp1)
      refine ⟨w, List.mem_of_find?_eq_some hconf2, hpred, ?_⟩
      rw [show create_provider_availability db pid a
            = .error (.badRequest (conflictMsg w)) from by
          simp [create_provider_availability, hprov, hconf]] at hd
      injection hd with hd2
      injection hd2 with hd3
      exact hd3.symm
    | none =>
      cases hdc : datesToCreate a with
      | error e =>
        have he := datesToCreate_error a e hdc
        subst he
        rw [show create_provider_availability db pid a
              = .error (.badRequest "Invalid recurrence pattern") from by
            simp [create_provider_availability, hprov, hconf, hdc]] at hd
        injection hd with hd2
        injection hd2 with hd3
        right; left; exact hd3.symm
      | ok ds =>
        cases ds with
        | nil =>
          rw [show create_provider_availability db pid a = .error .internal from by
              simp [create_provider_availability, hprov, hconf, hdc]] at hd
          injection hd with hd2
          cases hd2
        | cons d0 rest =>
          by_cases heff : a.slot_duration + a.break_duration ≤ 0
          · rw [show create_provider_availability db pid a
                  = .error (.badRequest "Invalid slot duration or break duration") from by
                simp [create_provider_availability, hprov, hconf, hdc, heff]] at hd
            injection hd with hd2
            injection hd2 with hd3
            right; right; exact hd3.symm
          · rw [show create_provider_availability db pid a
                  = .ok ((createLoop pid a
                      (Int.fdiv (a.end_time.toMinutes - a.start_time.toMinutes)
                        (a.slot_duration + a.break_duration)) db (d0 :: rest)).1, _) from by
                simp only [create_provider_availability, hprov, hconf, hdc]
                rw [if_neg heff]] at hd
            cases hd
  · intro hconf ds hdc hne heff
    obtain ⟨d0, rest, rfl⟩ : ∃ d0 rest, ds = d0 :: rest := by
      cases ds with
      | nil => exact absurd rfl hne
      | cons x xs => exact ⟨x, xs, rfl⟩
    simp only [create_provider_availability, hprov, hconf, hdc]
    rw [if_neg (by omega)]
    exact ⟨_, _, rfl⟩

theorem c5_conflict_spec_witness :
    dbC5.providers.find? (fun p => p.id == 1) = some provider1 ∧
    conflictingWindow dbC5 1 reqC5 = none ∧
    (∃ db2 res, create_provider_availability dbC5 1 reqC5 = .ok (db2, res)) :=
  ⟨rfl, rfl,
   (c5_conflict_spec dbC5 1 reqC5 provider1 rfl).2.2 rfl [feb15, feb16] rfl
     (by simp) (by decide)⟩

/-- C8: false as stated.  reqC8 is a recurring request (is_recurring true)
with the unsupported pattern "yearly" but no recurrence_end_date; the claim
requires rejection regardless of which other recurrence fields are present,
yet the code only validates the pattern when recurrence_end_date is also
truthy, so the request succeeds and creates a window. -/
theorem c8_pattern_counterexample :
    reqC8.is_recurring = true ∧
    reqC8.recurrence_pattern = some "yearly" ∧
    reqC8.recurrence_end_date = none ∧
    isOk (create_provider_availability dbEmpty 1 reqC8) = true ∧
    (applyCreateAvailability dbEmpty 1 reqC8).availabilities.length = 1 :=
  ⟨rfl, rfl, rfl, rfl, rfl⟩

/-- C8 (amended): an unsupported recurrence pattern is rejected (before any
window or slot is created) only when is_recurring, recurrence_pattern and
recurrence_end_date are all truthy; when recurrence_end_date is absent (or
the triple is otherwise falsy) the pattern is never validated — the request
falls back to a single-date creation and the invalid-pattern rejection
cannot occur. -/
theorem c8_pattern_spec (db : DB) (pid : Nat) (a : AvailabilityCreate)
    (prov : Provider) (hprov : db.providers.find? (fun p => p.id == pid) = some prov)
    (hconf : conflictingWindow db pid a = none) :
    ((a.is_recurring && patternTruthy a.recurrence_pattern
        && a.recurrence_end_date.isSome) = true →
       a.recurrence_pattern ≠ some "daily" →
       a.recurrence_pattern ≠ some "weekly" →
       a.recurrence_pattern ≠ some "monthly" →
       create_provider_availability db pid a
         = .error (.badRequest "Invalid recurrence pattern") ∧
       applyCreateAvailability db pid a = db) ∧
    ((a.is_recurring && patternTruthy a.recurrence_pattern
        && a.recurrence_end_date.isSome) = false →
       datesToCreate a = .ok [a.date] ∧
       create_provider_availability db pid a
         ≠ .error (.badRequest "Invalid recurrence pattern")) := by
  constructor
  · intro htr h1 h2 h3
    have hdc : datesToCreate a = .error (.badRequest "Invalid recurrence pattern") := by
      unfold datesToCreate
      rw [if_pos htr, if_neg h1, if_neg h2, if_neg h3]
    have herr : create_provider_availability db pid a
        = .error (.badRequest "Invalid recurrence pattern") := by
      simp [create_provider_availability, hprov, hconf, hdc]
    exact ⟨herr, by simp [applyCreateAvailability, herr]⟩
  · intro hfl
    have hdc : datesToCreate a = .ok [a.date] := by
      unfold datesToCreate
      rw [if_neg (by simp [hfl])]
    refine ⟨hdc, ?_⟩
    intro hd
    by_cases heff : a.slot_duration + a.break_duration ≤ 0
    · rw [show create_provider_availability db pid a
            = .error (.badRequest "Invalid slot duration or break duration") from by
          simp [create_provider_availability, hprov, hconf, hdc, heff]] at hd
      injection hd with hd2
      injection hd2 with hd3
      exact absurd hd3.symm (by decide)
    · rw [show create_provider_availability db pid a
            = .ok ((createLoop pid a
                (Int.fdiv (a.end_time.toMinutes - a.start_time.toMinutes)
                  (a.slot_duration + a.break_duration)) db [a.date]).1, _) from by
          simp only [create_provider_availability, hprov, hconf, hdc]
          rw [if_neg heff]] at hd
      cases hd

theorem c8_pattern_spec_witness :
    dbEmpty.providers.find? (fun p => p.id == 1) = some provider1 ∧
    conflictingWindow dbEmpty 1 reqC8y = none ∧
    (create_provider_availability dbEmpty 1 reqC8y
       = .error (.badRequest "Invalid recurrence pattern") ∧
     applyCreateAvailability dbEmpty 1 reqC8y = dbEmpty) :=
  ⟨rfl, rfl,
   (c8_pattern_spec dbEmpty 1 reqC8y provider1 rfl rfl).1 (by decide)
     (by decide) (by decide) (by decide)⟩

/-- Every slot generated for a window sits, in the window's wall-clock
frame (UTC instant plus the zone offset used at generation), inside the
window's declared [start_time, end_time] range on the window's date. -/
theorem generate_bounds (w : ProviderAvailability) (sc : Int) (tz : String) (base : Nat)
    (hdur : 0 ≤ w.slot_duration) (hbrk : 0 ≤ w.break_duration)
    (heff : 0 < w.slot_duration + w.break_duration)
    (hsc : sc ≤ Int.fdiv (w.end_time.toMinutes - w.start_time.toMinutes)
        (w.slot_duration + w.break_duration)) :
    ∀ s ∈ generate_appointment_slots w sc tz base,
      (w.date.toOrdinal : Int) * 1440 + w.start_time.toMinutes
          ≤ s.slot_start_time + (tzTable tz).getD 0 ∧
      s.slot_start_time ≤ s.slot_end_time ∧
      s.slot_end_time + (tzTable tz).getD 0
          ≤ (w.date.toOrdinal : Int) * 1440 + w.end_time.toMinutes := by
  intro s hs
  simp only [generate_appointment_slots, List.mem_map, List.mem_range] at hs
  obtain ⟨i, hi, heq⟩ := hs
  subst heq
  dsimp only
  have hinonneg : (0 : Int) ≤ (i : Int) * (w.slot_duration + w.break_duration) :=
    mul_nonneg (Int.ofNat_nonneg i) (le_of_lt heff)
  refine ⟨by linarith, by linarith, ?_⟩
  have hisc : (i : Int) < sc := by
    have h0 : (i : Int) < (sc.toNat : Int) := by exact_mod_cast hi
    calc (i : Int) < (sc.toNat : Int) := h0
      _ ≤ sc := by
          rcases le_or_lt 0 sc with hpos | hneg
          · rw [Int.toNat_of_nonneg hpos]
          · have : sc.toNat = 0 := Int.toNat_of_nonpos (le_of_lt hneg)
            omega
  have hfd : sc ≤ (w.end_time.toMinutes - w.start_time.toMinutes)
      / (w.slot_duration + w.break_duration) := by
    rw [← Int.fdiv_eq_ediv _ (le_of_lt heff)]
    exact hsc
  have hmul : ((i : Int) + 1) * (w.slot_duration + w.break_duration)
      ≤ w.end_time.toMinutes - w.start_time.toMinutes := by
    rw [← Int.le_ediv_iff_mul_le heff]
    omega
  nlinarith [hmul]

/-- C6: for every slot generated by a successful availability creation, the
stored UTC start/end instants, translated back by the window's declared
timezone offset, land inside the window's wall-clock [start_time, end_time]
range on the window's date (under the fixed-offset timezone model); and
when the declared timezone is unrecognized, slot generation behaves exactly
as with UTC instead of failing. -/
theorem c6_tz_roundtrip (db : DB) (pid : Nat) (a : AvailabilityCreate)
    (hwf : WellFormed db)
    (hdur : 0 ≤ a.slot_duration) (hbrk : 0 ≤ a.break_duration) :
    (∀ db2 res, create_provider_availability db pid a = .ok (db2, res) →
       ∃ newSlots, db2.slots = db.slots ++ newSlots ∧
         ∀ s ∈ newSlots, ∃ w, w ∈ db2.availabilities ∧ w.id = s.availability_id ∧
           w.timezone = a.timezone ∧ w.start_time = a.start_time ∧
           w.end_time = a.end_time ∧
           ((w.date.toOrdinal : Int) * 1440 + w.start_time.toMinutes
              ≤ s.slot_start_time + (tzTable w.timezone).getD 0 ∧
            s.slot_start_time ≤ s.slot_end_time ∧
            s.slot_end_time + (tzTable w.timezone).getD 0
              ≤ (w.date.toOrdinal : Int) * 1440 + w.end_time.toMinutes)) ∧
    (tzTable a.timezone = none →
       ∀ w sc base, generate_appointment_slots w sc a.timezone base
         = generate_appointment_slots w sc "UTC" base) := by
  obtain ⟨hnp, hna, hns, hnap, hfk_s, hfk_ap, hlt_a, hlt_s, hlt_ap⟩ := hwf
  constructor
  · intro db2 res hok
    cases hprov : db.providers.find? (fun p => p.id == pid) with
    | none => simp [create_provider_availability, hprov] at hok
    | some prov =>
      cases hconf : conflictingWindow db pid a with
      | some w => simp [create_provider_availability, hprov, hconf] at hok
      | none =>
        cases hdc : datesToCreate a with
        | error e => simp [create_provider_availability, hprov, hconf, hdc] at hok
        | ok ds =>
          cases ds with
          | nil => simp [create_provider_availability, hprov, hconf, hdc] at hok
          | cons d0 rest =>
            by_cases heff : a.slot_duration + a.break_duration ≤ 0
            · simp [create_provider_availability, hprov, hconf, hdc, heff] at hok
            · simp only [create_provider_availability, hprov, hconf, hdc] at hok
              rw [if_neg heff] at hok
              simp only [Except.ok.injEq, Prod.mk.injEq] at hok
              obtain ⟨hdb2, hres⟩ := hok
              subst hdb2
              have hpre : ∀ s ∈ db.slots, s.availability_id < db.next_id := by
                intro s hs
                obtain ⟨av, havmem, havid⟩ := hfk_s s hs
                have := hlt_a av havmem
                omega
              obtain ⟨ihp, ihpat, ihapp, ihav, ihdates2, ihcnt, ihnext, ihids, ihfields,
                newS, ihslots, ihmem, ihfilter⟩ := createLoop_spec pid a
                  (Int.fdiv (a.end_time.toMinutes - a.start_time.toMinutes)
                    (a.slot_duration + a.break_duration)) (d0 :: rest) db
                  (createLoop pid a (Int.fdiv (a.end_time.toMinutes - a.start_time.toMinutes)
                    (a.slot_duration + a.break_duration)) db (d0 :: rest)).1
                  (createLoop pid a (Int.fdiv (a.end_time.toMinutes - a.start_time.toMinutes)
                    (a.slot_duration + a.break_duration)) db (d0 :: rest)).2.1
                  (createLoop pid a (Int.fdiv (a.end_time.toMinutes - a.start_time.toMinutes)
                    (a.slot_duration + a.break_duration)) db (d0 :: rest)).2.2
                  rfl hpre
              refine ⟨newS, ihslots, ?_⟩
              intro s hs
              obtain ⟨w, hwmem, hwid, hwgen⟩ := ihmem s hs
              obtain ⟨hwp, hwst, hwet, hwtz, hwsd, hwbd, hwstat, hwcur, hwpr, hwty⟩ :=
                ihfields w hwmem
              have hbounds := generate_bounds w
                (Int.fdiv (a.end_time.toMinutes - a.start_time.toMinutes)
                  (a.slot_duration + a.break_duration)) a.timezone (w.id + 1)
                (by rw [hwsd]; exact hdur) (by rw [hwbd]; exact hbrk)
                (by rw [hwsd, hwbd]; omega)
                (by rw [hwsd, hwbd, hwst, hwet]) s hwgen
              refine ⟨w, ?_, hwid.symm, hwtz, hwst, hwet, ?_⟩
              · rw [ihav]
                exact List.mem_append_right _ hwmem
              · rw [hwtz]
                exact hbounds
  · intro htz w sc base
    simp [generate_appointment_slots, htz, show tzTable "UTC" = some 0 from rfl]

theorem c6_tz_roundtrip_witness :
    WellFormed dbEmpty ∧ (0 : Int) ≤ reqBase.slot_duration ∧
    (0 : Int) ≤ reqBase.break_duration ∧
    (∀ db2 res, create_provider_availability dbEmpty 1 reqBase = .ok (db2, res) →
       ∃ newSlots, db2.slots = dbEmpty.slots ++ newSlots ∧
         ∀ s ∈ newSlots, ∃ w, w ∈ db2.availabilities ∧ w.id = s.availability_id ∧
           w.timezone = reqBase.timezone ∧ w.start_time = reqBase.start_time ∧
           w.end_time = reqBase.end_time ∧
           ((w.date.toOrdinal : Int) * 1440 + w.start_time.toMinutes
              ≤ s.slot_start_time + (tzTable w.timezone).getD 0 ∧
            s.slot_start_time ≤ s.slot_end_time ∧
            s.slot_end_time + (tzTable w.timezone).getD 0
              ≤ (w.date.toOrdinal : Int) * 1440 + w.end_time.toMinutes)) :=
  ⟨by decide, by decide, by decide,
   (c6_tz_roundtrip dbEmpty 1 reqBase (by decide) (by decide) (by decide)).1⟩

/- Facts about the group-by-provider dict building of search_availability. -/

theorem addToGroups_pid (acc : List (Nat × List AppointmentSlot)) (s : AppointmentSlot)
    (hacc : ∀ g ∈ acc, ∀ x ∈ g.2, x.provider_id = g.1) :
    ∀ g ∈ addToGroups acc s, ∀ x ∈ g.2, x.provider_id = g.1 := by
  intro g hg x hx
  unfold addToGroups at hg
  by_cases hany : acc.any (fun g2 => g2.1 == s.provider_id) = true
  · rw [if_pos hany] at hg
    obtain ⟨g0, hg0, hge⟩ := List.mem_map.mp hg
    by_cases hk : (g0.1 == s.provider_id) = true
    · rw [if_pos hk] at hge
      subst hge
      rcases List.mem_append.mp hx with hxl | hxr
      · exact hacc g0 hg0 x hxl
      · rw [List.mem_singleton.mp hxr]
        exact (beq_iff_eq.mp hk).symm
    · rw [if_neg hk] at hge
      subst hge
      exact hacc g0 hg0 x hx
  · rw [if_neg hany] at hg
    rcases List.mem_append.mp hg with hgl | hgr
    · exact hacc g hgl x hx
    · rw [List.mem_singleton.mp hgr] at hx ⊢
      rw [List.mem_singleton.mp hx]

theorem addToGroups_keys (acc : List (Nat × List AppointmentSlot)) (s : AppointmentSlot) :
    (addToGroups acc s).map Prod.fst
      = if acc.any (fun g2 => g2.1 == s.provider_id) then acc.map Prod.fst
        else acc.map Prod.fst ++ [s.provider_id] := by
  unfold addToGroups
  by_cases hany : acc.any (fun g2 => g2.1 == s.provider_id) = true
  · rw [if_pos hany, if_pos hany, List.map_map]
    apply List.map_congr_left
    intro g0 hg0
    by_cases hk : (g0.1 == s.provider_id) = true
    · simp [beq_iff_eq.mp hk]
    · have hk2 : ¬ g0.1 = s.provider_id := fun h => hk (by simp [h])
      simp [hk2]
  · rw [if_neg hany, if_neg hany, List.map_append]
    rfl

theorem addToGroups_nodup (acc : List (Nat × List AppointmentSlot)) (s : AppointmentSlot)
    (h : (acc.map Prod.fst).Nodup) : ((addToGroups acc s).map Prod.fst).Nodup := by
  rw [addToGroups_keys]
  by_cases hany : acc.any (fun g2 => g2.1 == s.provider_id) = true
  · rw [if_pos hany]
    exact h
  · rw [if_neg hany]
    have hnm : s.provider_id ∉ acc.map Prod.fst := by
      intro hmem
      obtain ⟨g0, hg0, hg0e⟩ := List.mem_map.mp hmem
      exact hany (List.any_eq_true.mpr ⟨g0, hg0, by simp [hg0e]⟩)
    simp [List.nodup_append, h, hnm]

theorem addToGroups_mem (acc : List (Nat × List AppointmentSlot)) (s x : AppointmentSlot) :
    (∃ g ∈ addToGroups acc s, x ∈ g.2) ↔ (∃ g ∈ acc, x ∈ g.2) ∨ x = s := by
  unfold addToGroups
  by_cases hany : acc.any (fun g2 => g2.1 == s.provider_id) = true
  · rw [if_pos hany]
    constructor
    · rintro ⟨g, hg, hx⟩
      obtain ⟨g0, hg0, hge⟩ := List.mem_map.mp hg
      by_cases hk : (g0.1 == s.provider_id) = true
      · rw [if_pos hk] at hge
        subst hge
        rcases List.mem_append.mp hx with h | h
        · exact Or.inl ⟨g0, hg0, h⟩
        · exact Or.inr (List.mem_singleton.mp h)
      · rw [if_neg hk] at hge
        subst hge
        exact Or.inl ⟨g0, hg0, hx⟩
    · rintro (⟨g, hg, hx⟩ | rfl)
      · refine ⟨if (g.1 == s.provider_id) = true then (g.1, g.2 ++ [s]) else g,
          List.mem_map_of_mem _ hg, ?_⟩
        by_cases hk : (g.1 == s.provider_id) = true
        · rw [if_pos hk]
          exact List.mem_append_left _ hx
        · rw [if_neg hk]
          exact hx
      · obtain ⟨g0, hg0, hg0k⟩ := List.any_eq_true.mp hany
        refine ⟨(g0.1, g0.2 ++ [x]), ?_, List.mem_append_right _ (List.mem_singleton_self x)⟩
        have h2 := List.mem_map_of_mem
          (fun g => if g.1 == x.provider_id then (g.1, g.2 ++ [x]) else g) hg0
        dsimp only at h2
        rw [if_pos hg0k] at h2
        exact h2
  · rw [if_neg hany]
    constructor
    · rintro ⟨g, hg, hx⟩
      rcases List.mem_append.mp hg with h | h
      · exact Or.inl ⟨g, h, hx⟩
      · rw [List.mem_singleton.mp h] at hx
        exact Or.inr (List.mem_singleton.mp hx)
    · rintro (⟨g, hg, hx⟩ | rfl)
      · exact ⟨g, List.mem_append_left _ hg, hx⟩
      · exact ⟨(x.provider_id, [x]), List.mem_append_right _ (List.mem_singleton_self _),
          List.mem_singleton_self x⟩

theorem groupBy_pid : ∀ (l : List AppointmentSlot) (acc : List (Nat × List AppointmentSlot)),
    (∀ g ∈ acc, ∀ x ∈ g.2, x.provider_id = g.1) →
    ∀ g ∈ l.foldl addToGroups acc, ∀ x ∈ g.2, x.provider_id = g.1 := by
  intro l
  induction l with
  | nil => intro acc hacc; simpa using hacc
  | cons s t ih =>
    intro acc hacc
    rw [List.foldl_cons]
    exact ih _ (addToGroups_pid acc s hacc)

theorem groupBy_nodup : ∀ (l : List AppointmentSlot) (acc : List (Nat × List AppointmentSlot)),
    (acc.map Prod.fst).Nodup → ((l.foldl addToGroups acc).map Prod.fst).Nodup := by
  intro l
  induction l with
  | nil => intro acc h; simpa using h
  | cons s t ih =>
    intro acc h
    rw [List.foldl_cons]
    exact ih _ (addToGroups_nodup acc s h)

theorem groupBy_mem : ∀ (l : List AppointmentSlot) (acc : List (Nat × List AppointmentSlot))
    (x : AppointmentSlot),
    (∃ g ∈ l.foldl addToGroups acc, x ∈ g.2) ↔ (∃ g ∈ acc, x ∈ g.2) ∨ x ∈ l := by
  intro l
  induction l with
  | nil => intro acc x; simp
  | cons s t ih =>
    intro acc x
    rw [List.foldl_cons, ih, addToGroups_mem]
    simp only [List.mem_cons]
    exact or_assoc

/-- Unpacking the WHERE clause: what a slot passing the search filter
satisfies. -/
theorem slotMatches_props (db : DB) (c : SearchCriteria) (s : AppointmentSlot)
    (h : slotMatches db c s = true) :
    s.status = .AVAILABLE ∧
    (∃ p, db.providers.find? (fun q => q.id == s.provider_id) = some p ∧
       p.is_active = true) ∧
    (∀ mp, c.max_price = some mp → mp ≠ 0 →
       ∃ av, findAvail db s.availability_id = some av ∧
         ∃ pr, av.pricing = some pr ∧ ∃ fee, pr.base_fee = some fee ∧ fee ≤ mp) := by
  unfold slotMatches at h
  repeat rw [Bool.and_eq_true] at h
  obtain ⟨⟨⟨⟨⟨h1, h2⟩, h3⟩, h4⟩, h5⟩, h6⟩ := h
  refine ⟨beq_iff_eq.mp h1, ?_, ?_⟩
  · cases hfp : db.providers.find? (fun q => q.id == s.provider_id) with
    | none => rw [hfp] at h2; cases h2
    | some p =>
      rw [hfp] at h2
      rw [Bool.and_eq_true] at h2
      exact ⟨p, rfl, h2.1⟩
  · intro mp hmp hmp0
    cases hfa : findAvail db s.availability_id with
    | none => rw [hfa] at h3; cases h3
    | some av =>
      rw [hfa] at h3
      rw [Bool.and_eq_true] at h3
      obtain ⟨h3a, h3b⟩ := h3
      rw [hmp] at h3b
      dsimp only at h3b
      rw [if_neg (by simpa using hmp0)] at h3b
      cases hbf : av.pricing.bind (fun pr => pr.base_fee) with
      | none => rw [hbf] at h3b; cases h3b
      | some fee =>
        rw [hbf] at h3b
        cases hpr : av.pricing with
        | none => rw [hpr] at hbf; cases hbf
        | some pr =>
          rw [hpr] at hbf
          simp only [Option.some_bind] at hbf
          exact ⟨av, rfl, pr, hpr, fee, hbf, of_decide_eq_true h3b⟩

/-- C9 (amended): every slot in a search result belongs to db.slots, is
AVAILABLE, belongs to an active provider and passes the WHERE clause; the
result is grouped per provider with pairwise-distinct provider entries each
holding exactly that provider's matching slots; and when a NONZERO
max_price filter is given, every returned slot's window has a base_fee at
most max_price, and every matching slot appears in the result (so the
result is empty exactly when nothing matches).  A max_price of 0 is treated
as "no filter given" by the truthiness guard, which is what the
counterexample exhibits. -/
theorem c9_search_spec (db : DB) (c : SearchCriteria) :
    ∀ r, search_availability db c = .ok r →
    (∀ g ∈ r.results, ∀ o ∈ g.available_slots,
       ∃ s ∈ db.slots, s.id = o.slot_id ∧ s.provider_id = g.provider_id ∧
         slotMatches db c s = true ∧ s.status = .AVAILABLE ∧
         (∃ p, db.providers.find? (fun q => q.id == s.provider_id) = some p ∧
            p.is_active = true) ∧
         (∀ mp, c.max_price = some mp → mp ≠ 0 →
            ∃ av, findAvail db s.availability_id = some av ∧
              ∃ pr, av.pricing = some pr ∧ ∃ fee, pr.base_fee = some fee ∧ fee ≤ mp)) ∧
    (r.results.map (fun g => g.provider_id)).Nodup ∧
    (∀ s ∈ db.slots, slotMatches db c s = true →
       ∃ g ∈ r.results, g.provider_id = s.provider_id ∧
         ∃ o ∈ g.available_slots, o.slot_id = s.id) := by
  intro r hok
  unfold search_availability at hok
  by_cases hemp : (db.slots.filter (slotMatches db c)).isEmpty = true
  · rw [if_pos hemp] at hok
    injection hok with hok2
    subst hok2
    refine ⟨?_, ?_, ?_⟩
    · intro g hg
      exact absurd hg (List.not_mem_nil g)
    · simp
    · intro s hs hm
      exfalso
      have hmem : s ∈ db.slots.filter (slotMatches db c) := List.mem_filter.mpr ⟨hs, hm⟩
      rw [List.isEmpty_iff.mp hemp] at hmem
      exact absurd hmem (List.not_mem_nil s)
  · rw [if_neg hemp] at hok
    cases htz : tzTable (c.timezone.getD "UTC") with
    | none =>
      rw [htz] at hok
      cases hok
    | some off =>
      rw [htz] at hok
      injection hok with hok2
      subst hok2
      refine ⟨?_, ?_, ?_⟩
      · intro g hg o ho
        obtain ⟨g0, hg0, hge⟩ := List.mem_map.mp hg
        subst hge
        obtain ⟨s, hsg, hse⟩ := List.mem_map.mp ho
        have hmem : s ∈ db.slots.filter (slotMatches db c) := by
          have := (groupBy_mem (db.slots.filter (slotMatches db c)) [] s).mp ⟨g0, hg0, hsg⟩
          simpa using this
        obtain ⟨hsdb, hsm⟩ := List.mem_filter.mp hmem
        have hpid : s.provider_id = g0.1 :=
          groupBy_pid (db.slots.filter (slotMatches db c)) [] (by simp) g0 hg0 s hsg
        obtain ⟨hst, hpv, hmp⟩ := slotMatches_props db c s hsm
        refine ⟨s, hsdb, ?_, hpid, hsm, hst, hpv, hmp⟩
        rw [← hse]
        rfl
      · have hkeys : (((groupByProvider (db.slots.filter (slotMatches db c))).map
            (fun g => { provider_id := g.1
                        provider_name :=
                          (match db.providers.find? (fun p => p.id == g.1) with
                           | some p => "Dr. " ++ p.first_name ++ " " ++ p.last_name
                           | none => "")
                        available_slots := g.2.map (displaySlot off) : ProviderGroup })).map
              (fun g => g.provider_id))
            = (groupByProvider (db.slots.filter (slotMatches db c))).map Prod.fst := by
          rw [List.map_map]
          apply List.map_congr_left
          intro g0 _
          rfl
        rw [show (({ total_results := (groupByProvider (db.slots.filter (slotMatches db c))).length
                     results := (groupByProvider (db.slots.filter (slotMatches db c))).map
                       (fun g => { provider_id := g.1
                                   provider_name :=
                                     (match db.providers.find? (fun p => p.id == g.1) with
                                      | some p => "Dr. " ++ p.first_name ++ " " ++ p.last_name
                                      | none => "")
                                   available_slots := g.2.map (displaySlot off) }) } :
              SearchResult)).results = (groupByProvider (db.slots.filter (slotMatches db c))).map
            (fun g => { provider_id := g.1
                        provider_name :=
                          (match db.providers.find? (fun p => p.id == g.1) with
                           | some p => "Dr. " ++ p.first_name ++ " " ++ p.last_name
                           | none => "")
                        available_slots := g.2.map (displaySlot off) : ProviderGroup }) from rfl]
        rw [hkeys]
        exact groupBy_nodup (db.slots.filter (slotMatches db c)) [] (by simp)
      · intro s hs hm
        have hmem : s ∈ db.slots.filter (slotMatches db c) := List.mem_filter.mpr ⟨hs, hm⟩
        obtain ⟨g0, hg0, hsg⟩ :=
          (groupBy_mem (db.slots.filter (slotMatches db c)) [] s).mpr (Or.inr hmem)
        have hpid : s.provider_id = g0.1 :=
          groupBy_pid (db.slots.filter (slotMatches db c)) [] (by simp) g0 hg0 s hsg
        exact ⟨_, List.mem_map_of_mem _ hg0, hpid.symm, displaySlot off s,
          List.mem_map_of_mem _ hsg, rfl⟩

/-- C9: false as stated.  In state dbC9 the only window's base_fee is 100,
so with the max_price filter 0 (strictly below every matching window's
base_fee) the claim demands an empty result; but python truthiness treats
max_price = 0 as "no filter", so the search returns the provider with both
slots. -/
theorem c9_search_counterexample :
    critZero.max_price = some 0 ∧
    window10.pricing = some pricing100 ∧
    pricing100.base_fee = some 100 ∧
    (0 : Int) < 100 ∧
    searchTotalResults (search_availability dbC9 critZero) = 1 :=
  ⟨rfl, rfl, rfl, by decide, rfl⟩

theorem c9_search_spec_witness :
    search_availability dbC9 critFifty = .ok { total_results := 0, results := [] } ∧
    (∀ s ∈ dbC9.slots, slotMatches dbC9 critFifty s = true →
       ∃ g ∈ ({ total_results := 0, results := [] } : SearchResult).results,
         g.provider_id = s.provider_id ∧
         ∃ o ∈ g.available_slots, o.slot_id = s.id) :=
  ⟨rfl, (c9_search_spec dbC9 critFifty { total_results := 0, results := [] } rfl).2.2⟩
